import Mathlib

/-!
Verification development for the StyleFusion attribute-normalization,
identity-locking and prompt-compilation pipeline.

The TypeScript sources are shallowly embedded: JavaScript runtime values are
modelled by the inductive `JSValue` (rationals stand in for JS numbers; the
model has no `NaN` value, and `parseFloat`/number printing are modelled
exactly on the terminating decimals exercised here), and each source function
becomes an executable Lean definition with the same name and structure.
A function that can throw (property access on `null`/`undefined`) returns an
`Option`, with `none` for the thrown `TypeError`.
-/

namespace StyleFusion

/-- Model of a JavaScript runtime value, as consumed by the normalizers:
`null`, `undefined`, booleans, numbers (modelled as rationals), strings,
arrays and plain objects (ordered key/value lists, first key wins). -/
inductive JSValue : Type where
  | null : JSValue
  | undef : JSValue
  | bool : Bool → JSValue
  | num : ℚ → JSValue
  | str : String → JSValue
  | arr : List JSValue → JSValue
  | obj : List (String × JSValue) → JSValue

/-- JavaScript truthiness: `null`, `undefined`, `false`, `0` and `""` are
falsy; every array and object is truthy.  (The model has no `NaN`.) -/
def truthy : JSValue → Bool
  | .null => false
  | .undef => false
  | .bool b => b
  | .num q => decide (q ≠ 0)
  | .str s => decide (s ≠ "")
  | .arr _ => true
  | .obj _ => true

/-- First-match property lookup in an object's key/value list; a missing key
reads as `undefined`. -/
def getProp : List (String × JSValue) → String → JSValue
  | [], _ => .undef
  | (k, v) :: rest, key => if k = key then v else getProp rest key

/-- Property access `v[key]`.  On `null`/`undefined` JS throws a `TypeError`
(`none`); on any other primitive or on an array the named properties we read
are absent, so the access yields `undefined`. -/
def jsGet : JSValue → String → Option JSValue
  | .null, _ => none
  | .undef, _ => none
  | .obj fs, key => some (getProp fs key)
  | _, _ => some (.undef)

/-- Total variant of property access, used where the receiver is already
known to be neither `null` nor `undefined`. -/
def jsGetProp : JSValue → String → JSValue
  | .obj fs, key => getProp fs key
  | _, _ => (.undef)

/-- Decimal digits of a fraction `r/d` by long division, up to `fuel`
digits; stops when the remainder is `0`. -/
def fracStr : ℕ → ℕ → ℕ → String
  | _, _, 0 => ""
  | 0, _, _ + 1 => ""
  | r, d, fuel + 1 =>
    toString (r * 10 / d) ++ fracStr (r * 10 % d) d fuel

/-- Rendering of a JS number.  Modelled from `String(n)`: exact for
integers; for non-integers the decimal expansion of the rational (JS prints
the shortest round-trip form of the double, which agrees on the terminating
decimals this development evaluates). -/
def qToString (q : ℚ) : String :=
  if q.den = 1 then toString q.num
  else
    (if q < 0 then "-" else "") ++
      toString (q.num.natAbs / q.den) ++ "." ++ fracStr (q.num.natAbs % q.den) q.den 25

mutual

/-- JavaScript `String(v)` conversion for the values the normalizers
stringify: `String(null) = "null"`, `String(undefined) = "undefined"`,
booleans and numbers print, arrays join their elements with `","`
(`null`/`undefined` elements print as `""`), plain objects print as
`"[object Object]"`. -/
def jsToString : JSValue → String
  | .null => "null"
  | .undef => "undefined"
  | .bool b => if b then "true" else "false"
  | .num q => qToString q
  | .str s => s
  | .obj _ => "[object Object]"
  | .arr xs => jsJoinToString xs

/-- `Array.prototype.join(",")` as used by `String(array)`. -/
def jsJoinToString : List JSValue → String
  | [] => ""
  | [.null] => ""
  | [.undef] => ""
  | [x] => jsToString x
  | .null :: xs => "," ++ jsJoinToString xs
  | .undef :: xs => "," ++ jsJoinToString xs
  | x :: xs => jsToString x ++ "," ++ jsJoinToString xs

end

-- ============================================================================
-- Data model (src/types.ts)
-- ============================================================================

/-- `IdentityColor` from src/types.ts. -/
structure IdentityColor where
  description : String
  hex : String
deriving DecidableEq

/-- `FaceGeometry` from src/types.ts. -/
structure FaceGeometry where
  faceShape : String
  eyeShape : String
  browStyle : String
  noseShape : String
  lipShape : String
deriving DecidableEq

/-- `HairSpecifics` from src/types.ts. -/
structure HairSpecifics where
  hairLength : String
  hairWave : String
  hairPart : String
deriving DecidableEq

/-- `DNAConfidence` from src/types.ts; the number fields are modelled as
rationals. -/
structure DNAConfidence where
  overall : ℚ
  primaryColor : ℚ
  secondaryColor : ℚ
  accentColor : ℚ
  faceGeometry : ℚ
  hairSpecifics : ℚ
deriving DecidableEq

/-- `SubjectIdentity` from src/types.ts.  The source field `structure` is a
Lean keyword and is embedded as `bodyStructure`. -/
structure SubjectIdentity where
  primaryColor : IdentityColor
  secondaryColor : IdentityColor
  accentColor : IdentityColor
  texture : String
  bodyStructure : String
  distinguishingFeatures : List String
  estimatedAge : String
  species : String
  fixedSeed : String
  faceGeometry : Option FaceGeometry
  hairSpecifics : Option HairSpecifics
  identityNegatives : Option (List String)
  confidence : Option DNAConfidence
deriving DecidableEq

/-- The `meta` section of `ImageMetadata`. -/
structure MetaSection where
  intent : String
  aspect_ratio : String
  quality : String
deriving DecidableEq

/-- The `subject` section of `ImageMetadata`. -/
structure SubjectSection where
  archetype : String
  description : String
  expression : String
  pose : String
  attire : String
  identity : Option SubjectIdentity
deriving DecidableEq

/-- The `scene` section of `ImageMetadata`. -/
structure SceneSection where
  setting : String
  atmosphere : String
  elements : List String
deriving DecidableEq

/-- The `technical` section of `ImageMetadata`. -/
structure TechnicalSection where
  shot : String
  lens : String
  lighting : String
  render : String
deriving DecidableEq

/-- The `palette` section of `ImageMetadata`. -/
structure PaletteSection where
  colors : List String
  mood : String
deriving DecidableEq

/-- The `details` section of `ImageMetadata`. -/
structure DetailsSection where
  textures : List String
  accents : List String
deriving DecidableEq

/-- The `text_content` section of `ImageMetadata`. -/
structure TextContentSection where
  overlay : String
  style : String
deriving DecidableEq

/-- `ImageMetadata` from src/types.ts, the canonical normalized record. -/
structure ImageMetadata where
  meta : MetaSection
  subject : SubjectSection
  scene : SceneSection
  technical : TechnicalSection
  palette : PaletteSection
  details : DetailsSection
  negative : String
  text_content : TextContentSection
deriving DecidableEq

-- ============================================================================
-- Schema normalizer (src/utils/metadataNormalizers.ts)
-- ============================================================================

/-- `normalizeString` (src/utils/metadataNormalizers.ts:6-11): `""` for
`null`, `undefined`, `"None"`, `"none"`; a string is returned unchanged,
every other type becomes `""`. -/
def normalizeString : JSValue → String
  | .str s => if s = "None" ∨ s = "none" then "" else s
  | _ => ""

/-- The element filter of `normalizeArray`: drops `null`, `"None"` and
`"none"` (strict `!==`, so `undefined` and non-strings always pass). -/
def keepElem : JSValue → Bool
  | .null => false
  | .str s => decide (s ≠ "None" ∧ s ≠ "none")
  | _ => true

/-- The element coercion of `normalizeArray`: a string stays itself, any
other survivor is stringified with `String(item)`. -/
def stringifyElem : JSValue → String
  | .str s => s
  | x => jsToString x

/-- `normalizeArray` (src/utils/metadataNormalizers.ts:16-23). -/
def normalizeArray : JSValue → List String
  | .arr xs => (xs.filter keepElem).map stringifyElem
  | _ => []

/-- The `val && typeof val === 'object'` test: a truthy value of type
`object` exposes its properties (an array is an object whose named
properties we read are all absent). -/
def jsObjectProps : JSValue → Option (List (String × JSValue))
  | .obj fs => some fs
  | .arr _ => some []
  | _ => none

/-- `normalizeIdentityColor` (src/utils/metadataNormalizers.ts:28-37); the
source's `|| ''` on the hex is the identity on the string already returned
by `normalizeString`. -/
def normalizeIdentityColor (val : JSValue) : IdentityColor :=
  match jsObjectProps val with
  | some fs =>
    { description := normalizeString (getProp fs "description")
      hex := normalizeString (getProp fs "hex") }
  | none => { description := "", hex := "" }

/-- `normalizeFaceGeometry` (src/utils/metadataNormalizers.ts:42-57):
`undefined` unless at least one normalized field is non-empty. -/
def normalizeFaceGeometry (val : JSValue) : Option FaceGeometry :=
  match jsObjectProps val with
  | none => none
  | some fs =>
    let result : FaceGeometry :=
      { faceShape := normalizeString (getProp fs "faceShape")
        eyeShape := normalizeString (getProp fs "eyeShape")
        browStyle := normalizeString (getProp fs "browStyle")
        noseShape := normalizeString (getProp fs "noseShape")
        lipShape := normalizeString (getProp fs "lipShape") }
    if result.faceShape ≠ "" ∨ result.eyeShape ≠ "" ∨ result.browStyle ≠ "" ∨
        result.noseShape ≠ "" ∨ result.lipShape ≠ "" then
      some result
    else none

/-- `normalizeHairSpecifics` (src/utils/metadataNormalizers.ts:62-75). -/
def normalizeHairSpecifics (val : JSValue) : Option HairSpecifics :=
  match jsObjectProps val with
  | none => none
  | some fs =>
    let result : HairSpecifics :=
      { hairLength := normalizeString (getProp fs "hairLength")
        hairWave := normalizeString (getProp fs "hairWave")
        hairPart := normalizeString (getProp fs "hairPart") }
    if result.hairLength ≠ "" ∨ result.hairWave ≠ "" ∨ result.hairPart ≠ "" then
      some result
    else none

/-- One hexadecimal digit's numeric value, if any. -/
def hexDigit? (c : Char) : Option ℕ :=
  if '0' ≤ c ∧ c ≤ '9' then some (c.toNat - '0'.toNat)
  else if 'a' ≤ c ∧ c ≤ 'f' then some (c.toNat - 'a'.toNat + 10)
  else if 'A' ≤ c ∧ c ≤ 'F' then some (c.toNat - 'A'.toNat + 10)
  else none

/-- One decimal digit's numeric value, if any. -/
def decDigit? (c : Char) : Option ℕ :=
  if '0' ≤ c ∧ c ≤ '9' then some (c.toNat - '0'.toNat) else none

/-- Longest prefix of decimal digits, returned with the rest. -/
def takeDecDigits : List Char → List ℕ × List Char
  | [] => ([], [])
  | c :: cs =>
    match decDigit? c with
    | some d => let (ds, rest) := takeDecDigits cs; (d :: ds, rest)
    | none => ([], c :: cs)

/-- Value of a digit list in the given base. -/
def digitsVal (base : ℕ) (ds : List ℕ) : ℕ :=
  ds.foldl (fun acc d => acc * base + d) 0

/-- Model of JavaScript `parseFloat`: skip leading whitespace, optional
sign, then the longest valid decimal-number prefix
(`digits [. digits] [e[sign]digits]`); `none` models `NaN`.  `Infinity`
maps to a sentinel beyond the unit interval (the only use site clamps to
`[0,1]`).  The rational value is exact; JS rounds to a double, which agrees
wherever this development evaluates it. -/
def parseFloatQ (s : String) : Option ℚ :=
  let cs := s.data.dropWhile Char.isWhitespace
  let (sign, cs) : ℚ × List Char :=
    match cs with
    | '-' :: rest => (-1, rest)
    | '+' :: rest => (1, rest)
    | cs => (1, cs)
  if ['I', 'n', 'f', 'i', 'n', 'i', 't', 'y'].isPrefixOf cs then
    some (sign * (10 ^ 400 : ℚ))
  else
    let (intDs, cs) := takeDecDigits cs
    let (fracDs, cs) :=
      match cs with
      | '.' :: rest => takeDecDigits rest
      | cs => ([], cs)
    if intDs.isEmpty ∧ fracDs.isEmpty then none
    else
      let mantissa : ℚ :=
        (digitsVal 10 intDs : ℚ) + (digitsVal 10 fracDs : ℚ) / (10 ^ fracDs.length : ℚ)
      let expVal : ℤ :=
        match cs with
        | 'e' :: rest => parseExponent rest
        | 'E' :: rest => parseExponent rest
        | _ => 0
      some (sign * mantissa * (10 : ℚ) ^ expVal)
where
  /-- Exponent part after `e`/`E`; an exponent with no digits is not
  consumed and contributes `0`. -/
  parseExponent (cs : List Char) : ℤ :=
    let (esign, cs) : ℤ × List Char :=
      match cs with
      | '-' :: rest => (-1, rest)
      | '+' :: rest => (1, rest)
      | cs => (1, cs)
    let (eds, _) := takeDecDigits cs
    if eds.isEmpty then 0 else esign * digitsVal 10 eds

/-- The `clamp` helper inside `normalizeConfidence`
(src/utils/metadataNormalizers.ts:86-90): numbers clamp into `[0,1]`,
anything else goes through `parseFloat(String(n))` first, `NaN` becomes
`0`. -/
def clampJS : JSValue → ℚ
  | .num q => max 0 (min 1 q)
  | v =>
    match parseFloatQ (jsToString v) with
    | none => 0
    | some q => max 0 (min 1 q)

/-- `normalizeConfidence` (src/utils/metadataNormalizers.ts:80-103):
dropped unless `overall > 0`. -/
def normalizeConfidence (val : JSValue) : Option DNAConfidence :=
  match jsObjectProps val with
  | none => none
  | some fs =>
    let result : DNAConfidence :=
      { overall := clampJS (getProp fs "overall")
        primaryColor := clampJS (getProp fs "primaryColor")
        secondaryColor := clampJS (getProp fs "secondaryColor")
        accentColor := clampJS (getProp fs "accentColor")
        faceGeometry := clampJS (getProp fs "faceGeometry")
        hairSpecifics := clampJS (getProp fs "hairSpecifics") }
    if result.overall > 0 then some result else none

/-- `normalizeIdentity` (src/utils/metadataNormalizers.ts:108-153):
`undefined` unless the primary color's description or the fixed seed is
non-empty. -/
def normalizeIdentity (val : JSValue) : Option SubjectIdentity :=
  match jsObjectProps val with
  | none => none
  | some fs =>
    let primaryColor := normalizeIdentityColor (getProp fs "primaryColor")
    let fixedSeed := normalizeString (getProp fs "fixedSeed")
    if primaryColor.description = "" ∧ fixedSeed = "" then none
    else
      some
        { primaryColor
          secondaryColor := normalizeIdentityColor (getProp fs "secondaryColor")
          accentColor := normalizeIdentityColor (getProp fs "accentColor")
          texture := normalizeString (getProp fs "texture")
          bodyStructure := normalizeString (getProp fs "structure")
          distinguishingFeatures := normalizeArray (getProp fs "distinguishingFeatures")
          estimatedAge := normalizeString (getProp fs "estimatedAge")
          species := normalizeString (getProp fs "species")
          fixedSeed
          faceGeometry := normalizeFaceGeometry (getProp fs "faceGeometry")
          hairSpecifics := normalizeHairSpecifics (getProp fs "hairSpecifics")
          identityNegatives :=
            (let l := normalizeArray (getProp fs "identityNegatives")
             if l.isEmpty then none else some l)
          confidence := normalizeConfidence (getProp fs "confidence") }

/-- The `(raw.x as Record<string, unknown>) || {}` pattern: a falsy section
value is replaced by an empty object, so later field reads cannot throw. -/
def sectionVal (raw : JSValue) (key : String) : JSValue :=
  let v := jsGetProp raw key
  if truthy v then v else .obj []

/-- `normalizeMetadata` (src/utils/metadataNormalizers.ts:181-229).  The
top-level property reads `raw.meta`, `raw.subject`, … throw a `TypeError`
when `raw` is `null` or `undefined` (modelled as `none`); every other input
normalizes.  The source evaluates `normalizeIdentity(subject.identity)`
twice with identical results (it is pure); the model computes it once. -/
def normalizeMetadata (raw : JSValue) : Option ImageMetadata :=
  match raw with
  | .null => none
  | .undef => none
  | raw =>
    let meta := sectionVal raw "meta"
    let subject := sectionVal raw "subject"
    let scene := sectionVal raw "scene"
    let technical := sectionVal raw "technical"
    let palette := sectionVal raw "palette"
    let details := sectionVal raw "details"
    let textContent := sectionVal raw "text_content"
    some
      { meta :=
          { intent := normalizeString (jsGetProp meta "intent")
            aspect_ratio := normalizeString (jsGetProp meta "aspect_ratio")
            quality := normalizeString (jsGetProp meta "quality") }
        subject :=
          { archetype := normalizeString (jsGetProp subject "archetype")
            description := normalizeString (jsGetProp subject "description")
            expression := normalizeString (jsGetProp subject "expression")
            pose := normalizeString (jsGetProp subject "pose")
            attire := normalizeString (jsGetProp subject "attire")
            identity := normalizeIdentity (jsGetProp subject "identity") }
        scene :=
          { setting := normalizeString (jsGetProp scene "setting")
            atmosphere := normalizeString (jsGetProp scene "atmosphere")
            elements := normalizeArray (jsGetProp scene "elements") }
        technical :=
          { shot := normalizeString (jsGetProp technical "shot")
            lens := normalizeString (jsGetProp technical "lens")
            lighting := normalizeString (jsGetProp technical "lighting")
            render := normalizeString (jsGetProp technical "render") }
        palette :=
          { colors := normalizeArray (jsGetProp palette "colors")
            mood := normalizeString (jsGetProp palette "mood") }
        details :=
          { textures := normalizeArray (jsGetProp details "textures")
            accents := normalizeArray (jsGetProp details "accents") }
        negative := normalizeString (jsGetProp raw "negative")
        text_content :=
          { overlay := normalizeString (jsGetProp textContent "overlay")
            style := normalizeString (jsGetProp textContent "style") } }

/-- The record `normalizeMetadata` builds on any non-null, non-undefined
input (its third match arm, lets inlined); `normalizeMetadata w` is
definitionally `some (normalizedRecord w)` for such `w`. -/
def normalizedRecord (w : JSValue) : ImageMetadata :=
  { meta :=
      { intent := normalizeString (jsGetProp (sectionVal w "meta") "intent")
        aspect_ratio :=
          normalizeString (jsGetProp (sectionVal w "meta") "aspect_ratio")
        quality := normalizeString (jsGetProp (sectionVal w "meta") "quality") }
    subject :=
      { archetype := normalizeString (jsGetProp (sectionVal w "subject") "archetype")
        description :=
          normalizeString (jsGetProp (sectionVal w "subject") "description")
        expression :=
          normalizeString (jsGetProp (sectionVal w "subject") "expression")
        pose := normalizeString (jsGetProp (sectionVal w "subject") "pose")
        attire := normalizeString (jsGetProp (sectionVal w "subject") "attire")
        identity := normalizeIdentity (jsGetProp (sectionVal w "subject") "identity") }
    scene :=
      { setting := normalizeString (jsGetProp (sectionVal w "scene") "setting")
        atmosphere := normalizeString (jsGetProp (sectionVal w "scene") "atmosphere")
        elements := normalizeArray (jsGetProp (sectionVal w "scene") "elements") }
    technical :=
      { shot := normalizeString (jsGetProp (sectionVal w "technical") "shot")
        lens := normalizeString (jsGetProp (sectionVal w "technical") "lens")
        lighting := normalizeString (jsGetProp (sectionVal w "technical") "lighting")
        render := normalizeString (jsGetProp (sectionVal w "technical") "render") }
    palette :=
      { colors := normalizeArray (jsGetProp (sectionVal w "palette") "colors")
        mood := normalizeString (jsGetProp (sectionVal w "palette") "mood") }
    details :=
      { textures := normalizeArray (jsGetProp (sectionVal w "details") "textures")
        accents := normalizeArray (jsGetProp (sectionVal w "details") "accents") }
    negative := normalizeString (jsGetProp w "negative")
    text_content :=
      { overlay := normalizeString (jsGetProp (sectionVal w "text_content") "overlay")
        style := normalizeString (jsGetProp (sectionVal w "text_content") "style") } }

/-- The all-empty `ImageMetadata`: every string field `""`, every array
field `[]`, no identity. -/
def emptyImageMetadata : ImageMetadata :=
  { meta := { intent := "", aspect_ratio := "", quality := "" }
    subject :=
      { archetype := "", description := "", expression := "", pose := ""
        attire := "", identity := none }
    scene := { setting := "", atmosphere := "", elements := [] }
    technical := { shot := "", lens := "", lighting := "", render := "" }
    palette := { colors := [], mood := "" }
    details := { textures := [], accents := [] }
    negative := ""
    text_content := { overlay := "", style := "" } }

-- ============================================================================
-- Generic string/list helpers for the JS idioms used below
-- ============================================================================

/-- `Array.prototype.join(sep)` on an array of strings. -/
def joinSep (sep : String) : List String → String
  | [] => ""
  | [x] => x
  | x :: xs => x ++ sep ++ joinSep sep xs

/-- Worker for `jsSetDedup`: keep an element unless it was already
seen. -/
def jsSetDedupGo (seen : List String) : List String → List String
  | [] => []
  | x :: xs =>
    if x ∈ seen then jsSetDedupGo seen xs
    else x :: jsSetDedupGo (seen ++ [x]) xs

/-- `[...new Set(list)]`: removes duplicates keeping the first occurrence,
preserving order. -/
def jsSetDedup (l : List String) : List String :=
  jsSetDedupGo [] l

/-- Helper for `String.prototype.includes`: does `sub` occur as a
contiguous run inside `l`? -/
def substrAux (sub : List Char) : List Char → Bool
  | [] => sub.isEmpty
  | c :: cs => sub.isPrefixOf (c :: cs) || substrAux sub cs

/-- `s.includes(pat)`. -/
def jsIncludes (s pat : String) : Bool :=
  substrAux pat.data s.data

/-- `s.toLowerCase()`, modelled per character by `Char.toLower` (the data
this development evaluates is ASCII). -/
def jsToLowerCase (s : String) : String :=
  String.mk (s.data.map Char.toLower)

/-- `s.trim()`: strip leading and trailing whitespace. -/
def jsTrim (s : String) : String :=
  String.mk (((s.data.dropWhile Char.isWhitespace).reverse.dropWhile
    Char.isWhitespace).reverse)

/-- Worker for `jsSplitChar`, accumulating the current piece in
reverse. -/
def splitCharGo (sep : Char) (acc : List Char) : List Char → List String
  | [] => [String.mk acc.reverse]
  | c :: cs =>
    if c = sep then String.mk acc.reverse :: splitCharGo sep [] cs
    else splitCharGo sep (c :: acc) cs

/-- `s.split(sep)` for a single-character separator: adjacent separators
yield empty pieces, and `""` splits to `[""]`. -/
def jsSplitChar (sep : Char) (s : String) : List String :=
  splitCharGo sep [] s.data

/-- A character matched by the separator class of the split regex
`/[\s-]+/`. -/
def isSepChar (c : Char) : Bool :=
  c.isWhitespace || c = '-'

mutual

/-- Worker for `splitWsHyphen`, accumulating the current token in
reverse; a separator ends the token and switches to `splitSkip`. -/
def splitSepsGo (acc : List Char) : List Char → List String
  | [] => [String.mk acc.reverse]
  | c :: cs =>
    if isSepChar c then String.mk acc.reverse :: splitSkip cs
    else splitSepsGo (c :: acc) cs

/-- Worker for `splitWsHyphen`, inside a separator run; a trailing run
yields a final empty token. -/
def splitSkip : List Char → List String
  | [] => [""]
  | c :: cs =>
    if isSepChar c then splitSkip cs
    else splitSepsGo [c] cs

end

/-- `value.split(/[\s-]+/)`: each maximal run of whitespace/hyphens is one
separator; a leading or trailing run yields an empty token. -/
def splitWsHyphen (s : String) : List String :=
  splitSepsGo [] s.data

-- ============================================================================
-- Drift inference (src/utils/driftMaps.ts)
-- ============================================================================

/-- A drift table: attribute value → its 3 most likely drift targets, in
declaration order (JS object insertion order for these non-numeric keys). -/
def DriftMap : Type :=
  List (String × (String × String × String))

/-- `EYE_COLOR_DRIFT` (src/utils/driftMaps.ts:15-32). -/
def EYE_COLOR_DRIFT : DriftMap :=
  [("violet", ("blue", "purple", "lavender")),
   ("blue", ("grey", "teal", "green")),
   ("green", ("teal", "hazel", "blue")),
   ("hazel", ("brown", "green", "amber")),
   ("brown", ("black", "amber", "dark")),
   ("amber", ("brown", "orange", "golden")),
   ("grey", ("blue", "silver", "pale")),
   ("gray", ("blue", "silver", "pale")),
   ("black", ("dark brown", "deep", "hollow")),
   ("red", ("crimson", "pink", "burgundy")),
   ("gold", ("amber", "yellow", "orange")),
   ("golden", ("amber", "yellow", "brown")),
   ("silver", ("grey", "white", "pale")),
   ("teal", ("blue", "green", "aqua")),
   ("aqua", ("blue", "teal", "cyan")),
   ("heterochromia", ("matching eyes", "same color", "uniform"))]

/-- `EYE_SHAPE_DRIFT` (src/utils/driftMaps.ts:38-49). -/
def EYE_SHAPE_DRIFT : DriftMap :=
  [("almond", ("round", "wide", "narrow")),
   ("round", ("almond", "narrow", "angular")),
   ("hooded", ("wide-open", "round", "prominent")),
   ("downturned", ("upturned", "neutral", "wide")),
   ("upturned", ("downturned", "neutral", "droopy")),
   ("monolid", ("double lid", "creased", "deep-set")),
   ("deep-set", ("prominent", "bulging", "shallow")),
   ("prominent", ("deep-set", "sunken", "hooded")),
   ("wide-set", ("close-set", "narrow", "close")),
   ("close-set", ("wide-set", "far apart", "wide"))]

/-- `FACE_SHAPE_DRIFT` (src/utils/driftMaps.ts:55-67). -/
def FACE_SHAPE_DRIFT : DriftMap :=
  [("oval", ("round", "oblong", "angular")),
   ("round", ("oval", "square", "angular")),
   ("angular", ("soft", "round", "gentle")),
   ("square", ("round", "rectangular", "oval")),
   ("heart", ("oval", "round", "triangular")),
   ("heart-shaped", ("oval", "round", "triangular")),
   ("oblong", ("oval", "rectangular", "round")),
   ("diamond", ("oval", "angular", "heart")),
   ("rectangular", ("square", "oval", "round")),
   ("triangular", ("heart", "oval", "round")),
   ("soft", ("angular", "sharp", "defined"))]

/-- `BROW_STYLE_DRIFT` (src/utils/driftMaps.ts:73-83). -/
def BROW_STYLE_DRIFT : DriftMap :=
  [("natural arch", ("straight", "flat", "angular")),
   ("high arch", ("low", "straight", "flat")),
   ("straight", ("arched", "curved", "rounded")),
   ("s-shaped", ("straight", "arched", "angular")),
   ("rounded", ("angular", "straight", "sharp")),
   ("angled", ("rounded", "soft", "curved")),
   ("thick", ("thin", "sparse", "light")),
   ("thin", ("thick", "bushy", "heavy")),
   ("bushy", ("thin", "groomed", "sparse"))]

/-- `NOSE_SHAPE_DRIFT` (src/utils/driftMaps.ts:89-100). -/
def NOSE_SHAPE_DRIFT : DriftMap :=
  [("straight", ("curved", "hooked", "upturned")),
   ("straight bridge", ("curved", "hooked", "bumpy")),
   ("button", ("long", "pointed", "aquiline")),
   ("aquiline", ("button", "snub", "flat")),
   ("snub", ("long", "pointed", "aquiline")),
   ("wide", ("narrow", "thin", "pointed")),
   ("narrow", ("wide", "broad", "flat")),
   ("roman", ("button", "flat", "snub")),
   ("upturned", ("downturned", "straight", "hooked")),
   ("hooked", ("straight", "button", "upturned"))]

/-- `LIP_SHAPE_DRIFT` (src/utils/driftMaps.ts:106-115). -/
def LIP_SHAPE_DRIFT : DriftMap :=
  [("full", ("thin", "narrow", "flat")),
   ("thin", ("full", "plump", "thick")),
   ("cupid\x27s bow", ("flat", "straight", "undefined")),
   ("wide", ("narrow", "small", "thin")),
   ("heart-shaped", ("straight", "flat", "wide")),
   ("bow-shaped", ("straight", "flat", "thin")),
   ("plump", ("thin", "narrow", "flat")),
   ("natural", ("exaggerated", "enhanced", "artificial"))]

/-- `HAIR_LENGTH_DRIFT` (src/utils/driftMaps.ts:121-138). -/
def HAIR_LENGTH_DRIFT : DriftMap :=
  [("bald", ("hair", "long hair", "short hair")),
   ("shaved", ("long", "medium", "flowing")),
   ("buzzed", ("long", "flowing", "shoulder")),
   ("cropped", ("long", "flowing", "waist")),
   ("pixie", ("long", "flowing", "shoulder-length")),
   ("short", ("long", "flowing", "waist-length")),
   ("chin-length", ("long", "short", "waist")),
   ("chin", ("long", "short", "waist")),
   ("shoulder-length", ("waist", "short", "cropped")),
   ("shoulder", ("waist", "short", "cropped")),
   ("mid-back", ("short", "cropped", "chin")),
   ("waist-length", ("short", "cropped", "pixie")),
   ("waist", ("short", "cropped", "pixie")),
   ("hip-length", ("short", "cropped", "chin")),
   ("floor-length", ("short", "medium", "shoulder")),
   ("long", ("short", "cropped", "pixie"))]

/-- `HAIR_WAVE_DRIFT` (src/utils/driftMaps.ts:144-157). -/
def HAIR_WAVE_DRIFT : DriftMap :=
  [("pin-straight", ("wavy", "curly", "coiled")),
   ("straight", ("wavy", "curly", "kinky")),
   ("slightly wavy", ("straight", "curly", "coiled")),
   ("wavy", ("straight", "curly", "coiled")),
   ("loose waves", ("straight", "tight curls", "coiled")),
   ("curly", ("straight", "wavy", "pin-straight")),
   ("tight curls", ("loose", "wavy", "straight")),
   ("coily", ("straight", "wavy", "loose")),
   ("coiled", ("straight", "wavy", "loose")),
   ("kinky", ("straight", "wavy", "loose waves")),
   ("afro", ("straight", "wavy", "flat")),
   ("textured", ("smooth", "straight", "sleek"))]

/-- `HAIR_PART_DRIFT` (src/utils/driftMaps.ts:163-170). -/
def HAIR_PART_DRIFT : DriftMap :=
  [("center", ("side", "left", "right")),
   ("left", ("right", "center", "middle")),
   ("right", ("left", "center", "middle")),
   ("deep side", ("center", "middle", "slight")),
   ("none", ("parted", "center part", "side part")),
   ("middle", ("side", "left", "right"))]

/-- `HAIR_COLOR_DRIFT` (src/utils/driftMaps.ts:176-195). -/
def HAIR_COLOR_DRIFT : DriftMap :=
  [("black", ("brown", "dark brown", "grey")),
   ("dark brown", ("black", "light brown", "auburn")),
   ("brown", ("black", "blonde", "red")),
   ("light brown", ("dark brown", "blonde", "auburn")),
   ("auburn", ("brown", "red", "copper")),
   ("red", ("auburn", "orange", "brown")),
   ("ginger", ("red", "blonde", "auburn")),
   ("strawberry blonde", ("blonde", "red", "ginger")),
   ("blonde", ("brown", "dark", "black")),
   ("platinum", ("yellow blonde", "golden", "grey")),
   ("white", ("grey", "blonde", "silver")),
   ("grey", ("white", "black", "brown")),
   ("gray", ("white", "black", "brown")),
   ("silver", ("grey", "white", "blonde")),
   ("blue", ("black", "purple", "teal")),
   ("purple", ("blue", "pink", "black")),
   ("pink", ("purple", "red", "blonde")),
   ("green", ("blue", "teal", "black"))]

/-- `SKIN_TONE_DRIFT` (src/utils/driftMaps.ts:201-217). -/
def SKIN_TONE_DRIFT : DriftMap :=
  [("porcelain", ("tan", "dark", "olive")),
   ("fair", ("tan", "dark", "olive")),
   ("pale", ("tan", "dark", "medium")),
   ("light", ("dark", "tan", "deep")),
   ("medium", ("pale", "dark", "fair")),
   ("olive", ("pale", "dark", "fair")),
   ("tan", ("pale", "fair", "dark")),
   ("golden", ("pale", "cool", "ashen")),
   ("brown", ("pale", "fair", "light")),
   ("dark", ("pale", "fair", "light")),
   ("deep", ("pale", "fair", "light")),
   ("ebony", ("pale", "fair", "light")),
   ("warm", ("cool", "cold", "ashen")),
   ("cool", ("warm", "golden", "yellow")),
   ("neutral", ("warm", "cool", "extreme"))]

/-- `BODY_STRUCTURE_DRIFT` (src/utils/driftMaps.ts:223-236). -/
def BODY_STRUCTURE_DRIFT : DriftMap :=
  [("petite", ("tall", "large", "heavy")),
   ("slim", ("heavy", "muscular", "stocky")),
   ("slender", ("stocky", "muscular", "heavy")),
   ("athletic", ("overweight", "thin", "frail")),
   ("toned", ("soft", "flabby", "heavy")),
   ("average", ("extreme", "very thin", "very heavy")),
   ("curvy", ("angular", "thin", "flat")),
   ("muscular", ("thin", "frail", "soft")),
   ("stocky", ("thin", "tall", "lanky")),
   ("heavy", ("thin", "slender", "petite")),
   ("tall", ("short", "petite", "small")),
   ("short", ("tall", "lanky", "elongated"))]

/-- `TEXTURE_DRIFT` (src/utils/driftMaps.ts:242-252). -/
def TEXTURE_DRIFT : DriftMap :=
  [("silky", ("coarse", "rough", "wiry")),
   ("smooth", ("rough", "textured", "coarse")),
   ("soft", ("coarse", "wiry", "rough")),
   ("coarse", ("silky", "smooth", "fine")),
   ("fine", ("thick", "coarse", "heavy")),
   ("thick", ("thin", "fine", "sparse")),
   ("wiry", ("silky", "soft", "smooth")),
   ("fluffy", ("flat", "sleek", "limp")),
   ("sleek", ("fluffy", "messy", "wild"))]

/-- Own-property lookup in a drift table: the declared entries only.
`tableGet` adds the inherited `Object.prototype` members a JS property
read also reaches. -/
def lookupTriple (m : DriftMap) (k : String) : Option (String × String × String) :=
  List.lookup k m

/-- The property names of `Object.prototype`: a property read with one of
these keys on a plain object (or a function) hits the inherited member
when no own key of that name exists. -/
def protoKeys : List String :=
  ["constructor", "hasOwnProperty", "isPrototypeOf", "propertyIsEnumerable",
   "toLocaleString", "toString", "valueOf",
   "__defineGetter__", "__defineSetter__", "__lookupGetter__",
   "__lookupSetter__", "__proto__"]

/-- What a JS property read on the objects of this module can yield
besides a drift triple (a 3-string array): a builtin function (`fn name`),
the `Object.prototype` object itself (through the `__proto__` accessor), a
function's `name` string or `length` number, and `null`
(`Object.prototype.__proto__`). -/
inductive MapVal where
  | arr3 (t : String × String × String)
  | fn (name : String)
  | objProto
  | str (s : String)
  | num (n : ℕ)
  | nullv
deriving DecidableEq

/-- JS truthiness of a `MapVal`. -/
def truthyMapVal : MapVal → Bool
  | .arr3 _ => true
  | .fn _ => true
  | .objProto => true
  | .str s => decide (s ≠ "")
  | .num n => decide (n ≠ 0)
  | .nullv => false

/-- Truthiness of a property read (`undefined` is falsy). -/
def truthyRead : Option MapVal → Bool
  | some v => truthyMapVal v
  | none => false

/-- The inherited `Object.prototype` member read through key
`k ∈ protoKeys`: the `__proto__` accessor yields `Object.prototype`
itself, `constructor` the `Object` function, the rest the builtin method
of that name. -/
def protoMemberVal (k : String) : MapVal :=
  if k = "__proto__" then .objProto
  else if k = "constructor" then .fn "Object"
  else .fn k

/-- `map[key]` on a drift table: the own entry when the key is declared,
else the inherited `Object.prototype` member when the key is one of its
property names, else `undefined` (`none`). -/
def tableGet (m : DriftMap) (k : String) : Option MapVal :=
  match lookupTriple m k with
  | some t => some (.arr3 t)
  | none => if k ∈ protoKeys then some (protoMemberVal k) else none

/-- A thrown `TypeError` or a normal result: property reads on functions
throw on the poisoned `caller`/`arguments` accessors, and `.filter` on a
non-array value throws. -/
inductive JSOutcome (α : Type) where
  | thrown
  | ok (val : α)
deriving DecidableEq

/-- `Function.length` of the builtins reachable as `maps[category]` for a
prototype-key category (the unlisted ones — `toString`, `toLocaleString`,
`valueOf` — have arity 0). -/
def fnArity : String → ℕ
  | "Object" => 1
  | "hasOwnProperty" => 1
  | "isPrototypeOf" => 1
  | "propertyIsEnumerable" => 1
  | "__defineGetter__" => 2
  | "__defineSetter__" => 2
  | "__lookupGetter__" => 1
  | "__lookupSetter__" => 1
  | _ => 0

/-- `f[key]` where `f` is a builtin function named `fname` and `key` is an
already-lowercased string (`findBestMatch` lowercases its value before
every read): `caller` and `arguments` are throwing accessors on
`Function.prototype`; `name` and `length` are the function's own data
properties; `call`/`apply`/`bind` and `constructor` come from
`Function.prototype`; `__proto__` yields `Function.prototype` (a function
with empty name); every other lowercase key is absent. -/
def fnGet (fname key : String) : JSOutcome (Option MapVal) :=
  if key = "caller" ∨ key = "arguments" then .thrown
  else .ok (
    if key = "name" then some (.str fname)
    else if key = "length" then some (.num (fnArity fname))
    else if key = "call" ∨ key = "apply" ∨ key = "bind" then some (.fn key)
    else if key = "constructor" then some (.fn "Function")
    else if key = "__proto__" then some (.fn "")
    else none)

/-- `Object.prototype[key]` for a lowercased `key`: only `constructor`
(the `Object` function) and the `__proto__` accessor (which yields `null`
here) are reachable through all-lowercase keys. -/
def objProtoGet (key : String) : Option MapVal :=
  if key = "constructor" then some (.fn "Object")
  else if key = "__proto__" then some .nullv
  else none

/-- The values `maps[category]` can produce inside `inferNegatives`: an
own drift table, a builtin function (for a prototype-key category), or
`Object.prototype` itself (category `"__proto__"`). -/
inductive MapLike where
  | table (m : DriftMap)
  | fnMap (fname : String)
  | protoMap

/-- A property read on whatever `maps[category]` produced. -/
def mapRead : MapLike → String → JSOutcome (Option MapVal)
  | .table m, key => .ok (tableGet m key)
  | .fnMap f, key => fnGet f key
  | .protoMap, key => .ok (objProtoGet key)

/-- `Object.entries(map)`: own enumerable entries — the table's list, and
nothing on a function or on `Object.prototype`. -/
def mapEntries : MapLike → DriftMap
  | .table m => m
  | _ => []

/-- Stage 3 of `findBestMatch`: the first word longer than 2 characters
whose property read is truthy is returned; a read of a poisoned key
throws. -/
def wordStage (m : MapLike) : List String → JSOutcome (Option MapVal)
  | [] => .ok none
  | w :: ws =>
    if w.length > 2 then
      match mapRead m w with
      | .thrown => .thrown
      | .ok r => if truthyRead r then .ok r else wordStage m ws
    else wordStage m ws

/-- `findBestMatch` (src/utils/driftMaps.ts:262-284): exact (truthy) match
— which can hit an inherited `Object.prototype` member — then the first
textual-inclusion match over the own entries in declaration order, then
the first word longer than 2 characters whose read is truthy.
`toLowerCase`/`trim` are modelled on char lists (the table data is
ASCII). -/
def findBestMatch (value : String) (map : MapLike) :
    JSOutcome (Option MapVal) :=
  let normalized := jsTrim (jsToLowerCase value)
  match mapRead map normalized with
  | .thrown => .thrown
  | .ok r =>
    if truthyRead r then .ok r
    else
      match (mapEntries map).find? (fun kv =>
          jsIncludes normalized kv.1 || jsIncludes kv.1 normalized) with
      | some kv => .ok (some (.arr3 kv.2))
      | none => wordStage map (splitWsHyphen normalized)

/-- `DEFAULT_NEGATIVES` (src/utils/driftMaps.ts:287). -/
def DEFAULT_NEGATIVES : String × String × String :=
  ("different", "changed", "altered")

/-- The own keys of the category-dispatch object inside `inferNegatives`
(src/utils/driftMaps.ts:301-330); `mapsGet` adds the inherited
`Object.prototype` members the source's `maps[category]` read also
reaches. -/
def categoryMaps : String → Option DriftMap
  | "eyeColor" => some EYE_COLOR_DRIFT
  | "eyeShape" => some EYE_SHAPE_DRIFT
  | "primaryColor" => some EYE_COLOR_DRIFT
  | "faceShape" => some FACE_SHAPE_DRIFT
  | "browStyle" => some BROW_STYLE_DRIFT
  | "noseShape" => some NOSE_SHAPE_DRIFT
  | "lipShape" => some LIP_SHAPE_DRIFT
  | "hairLength" => some HAIR_LENGTH_DRIFT
  | "hairWave" => some HAIR_WAVE_DRIFT
  | "hairPart" => some HAIR_PART_DRIFT
  | "hairColor" => some HAIR_COLOR_DRIFT
  | "accentColor" => some HAIR_COLOR_DRIFT
  | "skinTone" => some SKIN_TONE_DRIFT
  | "secondaryColor" => some SKIN_TONE_DRIFT
  | "structure" => some BODY_STRUCTURE_DRIFT
  | "bodyBuild" => some BODY_STRUCTURE_DRIFT
  | "texture" => some TEXTURE_DRIFT
  | _ => none

/-- `maps[category]`: an own table, or — for a category that names an
`Object.prototype` member — the inherited (truthy) member, which the
`if (!map)` guard then lets through. -/
def mapsGet (category : String) : Option MapLike :=
  match categoryMaps category with
  | some m => some (.table m)
  | none =>
    if category ∈ protoKeys then
      some (if category = "__proto__" then .protoMap
            else .fnMap (if category = "constructor" then "Object" else category))
    else none

/-- `inferNegatives` (src/utils/driftMaps.ts:295-336), with the inherited
prototype members of the dispatch object and of the drift tables
modelled: the result is a drift triple (`arr3`) on the normal path, but a
lookup that hits an inherited member returns that member (a function,
string, number or object), and a read of a function's poisoned
`caller`/`arguments` keys throws. -/
def inferNegatives (category value : String) : JSOutcome MapVal :=
  if value = "" ∨ jsTrim value = "" then .ok (.arr3 DEFAULT_NEGATIVES)
  else
    match mapsGet category with
    | none => .ok (.arr3 DEFAULT_NEGATIVES)
    | some map =>
      match findBestMatch value map with
      | .thrown => .thrown
      | .ok (some v) => .ok v
      | .ok none => .ok (.arr3 DEFAULT_NEGATIVES)

/-- Stage 3 of `findBestMatch` on an own drift table, where reads are
pure. -/
def wordStageT (m : DriftMap) : List String → Option MapVal
  | [] => none
  | w :: ws =>
    if w.length > 2 then
      if truthyRead (tableGet m w) then tableGet m w else wordStageT m ws
    else wordStageT m ws

/-- `findBestMatch` restricted to an own drift table, where no property
read can throw (tables inherit no poisoned accessor): the same staged
lookup, pure.  `findBestMatch_table` below proves it agrees with the
general fallible function. -/
def findBestMatchT (value : String) (m : DriftMap) : Option MapVal :=
  let normalized := jsTrim (jsToLowerCase value)
  if truthyRead (tableGet m normalized) then tableGet m normalized
  else
    match m.find? (fun kv =>
        jsIncludes normalized kv.1 || jsIncludes kv.1 normalized) with
    | some kv => some (.arr3 kv.2)
    | none => wordStageT m (splitWsHyphen normalized)

/-- `inferNegatives` restricted to the pure reads: identical to the
fallible function whenever the category is an own key of the dispatch
object or no `Object.prototype` member (`inferNegatives_table` below) —
in particular at every category the hydration layer passes. -/
def inferNegativesT (category value : String) : MapVal :=
  if value = "" ∨ jsTrim value = "" then .arr3 DEFAULT_NEGATIVES
  else
    match categoryMaps category with
    | none => .arr3 DEFAULT_NEGATIVES
    | some m => (findBestMatchT value m).getD (.arr3 DEFAULT_NEGATIVES)

-- ============================================================================
-- Color utilities (src/utils/colorUtils.ts)
-- ============================================================================

/-- `BASE_COLORS` (src/utils/colorUtils.ts:7-31), in declaration order. -/
def BASE_COLORS : List (String × ℤ × ℤ × ℤ) :=
  [("red", 255, 0, 0),
   ("orange", 255, 165, 0),
   ("yellow", 255, 255, 0),
   ("green", 0, 128, 0),
   ("cyan", 0, 255, 255),
   ("blue", 0, 0, 255),
   ("indigo", 75, 0, 130),
   ("purple", 128, 0, 128),
   ("pink", 255, 192, 203),
   ("brown", 139, 69, 19),
   ("gray", 128, 128, 128),
   ("black", 0, 0, 0),
   ("white", 255, 255, 255),
   ("gold", 255, 215, 0),
   ("silver", 192, 192, 192),
   ("bronze", 205, 127, 50),
   ("amber", 255, 191, 0),
   ("teal", 0, 128, 128),
   ("navy", 0, 0, 128),
   ("maroon", 128, 0, 0),
   ("olive", 128, 128, 0),
   ("coral", 255, 127, 80),
   ("azure", 0, 127, 255)]

/-- Longest prefix of hexadecimal digits, returned with the rest. -/
def takeHexDigits : List Char → List ℕ × List Char
  | [] => ([], [])
  | c :: cs =>
    match hexDigit? c with
    | some d => let (ds, rest) := takeHexDigits cs; (d :: ds, rest)
    | none => ([], c :: cs)

/-- Model of JavaScript `parseInt(s, 16)`: skip leading whitespace,
optional sign, optional `0x`/`0X` prefix, then the longest prefix of hex
digits; `none` models `NaN` (no digits). -/
def parseIntHex16 (s : String) : Option ℤ :=
  let cs := s.data.dropWhile Char.isWhitespace
  let (sign, cs) : ℤ × List Char :=
    match cs with
    | '-' :: rest => (-1, rest)
    | '+' :: rest => (1, rest)
    | cs => (1, cs)
  let cs :=
    match cs with
    | '0' :: 'x' :: rest => rest
    | '0' :: 'X' :: rest => rest
    | cs => cs
  let (ds, _) := takeHexDigits cs
  if ds.isEmpty then none else some (sign * (digitsVal 16 ds : ℤ))

/-- `hexToRgb` (src/utils/colorUtils.ts:36-59): strip one leading `#`,
expand 3-digit hex by doubling each character, require 6 characters, parse
each 2-character component with `parseInt(_, 16)`. -/
def hexToRgb (hex : String) : Option (ℤ × ℤ × ℤ) :=
  let cleanHex : List Char :=
    match hex.data with
    | c :: rest => if c = '#' then rest else c :: rest
    | [] => []
  let fullHex :=
    if cleanHex.length = 3 then cleanHex.flatMap (fun c => [c, c]) else cleanHex
  if fullHex.length ≠ 6 then none
  else
    match parseIntHex16 (String.mk (fullHex.take 2)),
        parseIntHex16 (String.mk ((fullHex.drop 2).take 2)),
        parseIntHex16 (String.mk (fullHex.drop 4)) with
    | some r, some g, some b => some (r, g, b)
    | _, _, _ => none

/-- Squared Euclidean RGB distance.  The source compares
`Math.sqrt`-distances; on these integer squared distances (all below
`8 * 255^2`) double-precision square root is strictly monotone and
injective, so every `<` comparison agrees with comparing the squares. -/
def distSq (a b : ℤ × ℤ × ℤ) : ℤ :=
  (a.1 - b.1) ^ 2 + (a.2.1 - b.2.1) ^ 2 + (a.2.2 - b.2.2) ^ 2

/-- Perceived luminance scaled by 1000: the source computes
`0.299*r + 0.587*g + 0.114*b` in doubles and compares with 80 and 180;
the scaled integer comparison agrees except possibly for inputs within one
double ulp of a threshold, none of which this development evaluates. -/
def lum1000 (rgb : ℤ × ℤ × ℤ) : ℤ :=
  299 * rgb.1 + 587 * rgb.2.1 + 114 * rgb.2.2

/-- `getColorModifier` (src/utils/colorUtils.ts:87-97). -/
def getColorModifier (hex : String) : String :=
  match hexToRgb hex with
  | none => ""
  | some rgb =>
    if lum1000 rgb > 180000 then "light"
    else if lum1000 rgb < 80000 then "dark"
    else ""

/-- `hexToSimpleColorName` (src/utils/colorUtils.ts:102-118): fold over
`BASE_COLORS` keeping the strictly closer color; `none` as the running
minimum models the initial `Infinity`, and the initial closest color is
`BASE_COLORS[0]`. -/
def hexToSimpleColorName (hex : String) : String :=
  match hexToRgb hex with
  | none => "unknown"
  | some rgb =>
    (BASE_COLORS.foldl (fun (acc : String × Option ℤ) c =>
      match acc.2 with
      | none => (c.1, some (distSq rgb c.2))
      | some m =>
        if distSq rgb c.2 < m then (c.1, some (distSq rgb c.2)) else acc)
      ("red", none)).1

/-- `formatColorWithModifier` (src/utils/colorUtils.ts:123-133):
black/white never receive a modifier. -/
def formatColorWithModifier (hex : String) : String :=
  let colorName := hexToSimpleColorName hex
  let modifier := getColorModifier hex
  if colorName = "black" ∨ colorName = "white" then colorName
  else if modifier ≠ "" then modifier ++ " " ++ colorName
  else colorName

/-- `formatColorPalette` (src/utils/colorUtils.ts:139-156): `""` for no
colors, one formatted name for one color, the first two joined with
`" and "` otherwise, collapsed when both format identically. -/
def formatColorPalette (colors : List String) : String :=
  match colors with
  | [] => ""
  | [c] => formatColorWithModifier c
  | c1 :: c2 :: _ =>
    let color1 := formatColorWithModifier c1
    let color2 := formatColorWithModifier c2
    if color1 = color2 then color1 else color1 ++ " and " ++ color2

-- ============================================================================
-- Identity hydration (src/unnamed/part_001, the hydration layer)
-- ============================================================================

/-- `Locked` from src/types.ts: a positive value with what
`inferNegatives` returned for it — the drift triple on the normal path,
but possibly an inherited prototype member (the declared TS type
`string[]` is not enforced at runtime). -/
structure Locked where
  is : String
  not : MapVal
deriving DecidableEq

/-- `LockedIdentityColor` from src/types.ts. -/
structure LockedIdentityColor where
  is : IdentityColor
  not : MapVal
deriving DecidableEq

/-- `LockedFaceGeometry` from src/types.ts. -/
structure LockedFaceGeometry where
  faceShape : Locked
  eyeShape : Locked
  browStyle : Locked
  noseShape : Locked
  lipShape : Locked
deriving DecidableEq

/-- `LockedHairSpecifics` from src/types.ts. -/
structure LockedHairSpecifics where
  hairLength : Locked
  hairWave : Locked
  hairPart : Locked
deriving DecidableEq

/-- `LockedSubjectIdentity` from src/types.ts (source field `structure`
embedded as `bodyStructure`). -/
structure LockedSubjectIdentity where
  primaryColor : LockedIdentityColor
  secondaryColor : LockedIdentityColor
  accentColor : LockedIdentityColor
  texture : Locked
  bodyStructure : Locked
  distinguishingFeatures : List String
  estimatedAge : String
  species : String
  fixedSeed : String
  faceGeometry : Option LockedFaceGeometry
  hairSpecifics : Option LockedHairSpecifics
  identityNegatives : Option (List String)
  confidence : Option DNAConfidence
deriving DecidableEq

/-- `lock` (hydration layer): wrap a value with its inferred negatives
(the source's `value || ''` is the identity on these total strings).
Every category the hydration layer passes is an own key of the dispatch
object, where `inferNegatives` never throws and equals
`.ok (inferNegativesT category value)` (`inferNegatives_table`); the
stored field is that `ok` payload. -/
def lock (value : String) (category : String) : Locked :=
  { is := value, not := inferNegativesT category value }

/-- `lockIdentityColor` (hydration layer): negatives inferred from the
color's description (own category, as for `lock`). -/
def lockIdentityColor (color : IdentityColor) (category : String) :
    LockedIdentityColor :=
  { is := color, not := inferNegativesT category color.description }

/-- `lockFaceGeometry` (hydration layer). -/
def lockFaceGeometry (geo : FaceGeometry) : LockedFaceGeometry :=
  { faceShape := lock geo.faceShape "faceShape"
    eyeShape := lock geo.eyeShape "eyeShape"
    browStyle := lock geo.browStyle "browStyle"
    noseShape := lock geo.noseShape "noseShape"
    lipShape := lock geo.lipShape "lipShape" }

/-- `lockHairSpecifics` (hydration layer). -/
def lockHairSpecifics (hair : HairSpecifics) : LockedHairSpecifics :=
  { hairLength := lock hair.hairLength "hairLength"
    hairWave := lock hair.hairWave "hairWave"
    hairPart := lock hair.hairPart "hairPart" }

/-- `hydrateIdentity` (hydration layer): locks the three colors,
texture and structure, and the optional face-geometry/hair-specifics
fields; everything else passes through. -/
def hydrateIdentity (identity : SubjectIdentity) : LockedSubjectIdentity :=
  { primaryColor := lockIdentityColor identity.primaryColor "eyeColor"
    secondaryColor := lockIdentityColor identity.secondaryColor "skinTone"
    accentColor := lockIdentityColor identity.accentColor "hairColor"
    texture := lock identity.texture "texture"
    bodyStructure := lock identity.bodyStructure "structure"
    distinguishingFeatures := identity.distinguishingFeatures
    estimatedAge := identity.estimatedAge
    species := identity.species
    fixedSeed := identity.fixedSeed
    faceGeometry := identity.faceGeometry.map lockFaceGeometry
    hairSpecifics := identity.hairSpecifics.map lockHairSpecifics
    identityNegatives := identity.identityNegatives
    confidence := identity.confidence }

/-- `PromptPair` (hydration layer). -/
structure PromptPair where
  positive : List String
  negative : List String
deriving DecidableEq

/-- The 3 negatives of a drift triple as a list, `Boolean`-filtered. -/
def notList (t : String × String × String) : List String :=
  [t.1, t.2.1, t.2.2].filter (fun s => s ≠ "")

/-- The source's `X.not.filter(Boolean)` spread: filters the triple when
`not` is the array it is declared to be, and throws a `TypeError`
(`.filter` is not a function) when a drift lookup stored an inherited
prototype member instead. -/
def notFilter : MapVal → JSOutcome (List String)
  | .arr3 t => .ok (notList t)
  | _ => .thrown

/-- Sequencing of two fallible list computations (a throw anywhere aborts
the whole builder). -/
def jsAppend : JSOutcome (List String) → JSOutcome (List String) →
    JSOutcome (List String)
  | .ok a, .ok b => .ok (a ++ b)
  | _, _ => .thrown

/-- The face-geometry positive phrases, in source order: only a non-empty
field emits a phrase.  Shared by `buildIdentityLock` and
`buildLockedIdentityPromptPair`, which build these phrases identically. -/
def geoPhrases (geo : FaceGeometry) : List String :=
  (if geo.faceShape ≠ "" then [geo.faceShape ++ " face"] else []) ++
  (if geo.eyeShape ≠ "" then [geo.eyeShape ++ " eyes"] else []) ++
  (if geo.browStyle ≠ "" then [geo.browStyle ++ " brows"] else []) ++
  (if geo.noseShape ≠ "" then [geo.noseShape ++ " nose"] else []) ++
  (if geo.lipShape ≠ "" then [geo.lipShape ++ " lips"] else [])

/-- The face-geometry negatives, in source order; each evaluated
`not.filter(Boolean)` can throw. -/
def geoNegs (geo : LockedFaceGeometry) : JSOutcome (List String) :=
  jsAppend (if geo.faceShape.is ≠ "" then notFilter geo.faceShape.not else .ok [])
    (jsAppend (if geo.eyeShape.is ≠ "" then notFilter geo.eyeShape.not else .ok [])
      (jsAppend (if geo.browStyle.is ≠ "" then notFilter geo.browStyle.not else .ok [])
        (jsAppend (if geo.noseShape.is ≠ "" then notFilter geo.noseShape.not else .ok [])
          (if geo.lipShape.is ≠ "" then notFilter geo.lipShape.not else .ok []))))

/-- The positive (`is`) values of a locked face geometry. -/
def unlockGeo (geo : LockedFaceGeometry) : FaceGeometry :=
  { faceShape := geo.faceShape.is
    eyeShape := geo.eyeShape.is
    browStyle := geo.browStyle.is
    noseShape := geo.noseShape.is
    lipShape := geo.lipShape.is }

/-- The positive (`is`) values of locked hair specifics. -/
def unlockHair (hair : LockedHairSpecifics) : HairSpecifics :=
  { hairLength := hair.hairLength.is
    hairWave := hair.hairWave.is
    hairPart := hair.hairPart.is }

/-- The `hairParts` list both builders accumulate: hair length, then hair
wave (when hair specifics are present and the fields are non-empty), then
the accent-color description. -/
def hairPhraseParts (specs : Option HairSpecifics) (accentDesc : String) :
    List String :=
  (match specs with
   | some h =>
     (if h.hairLength ≠ "" then [h.hairLength] else []) ++
     (if h.hairWave ≠ "" then [h.hairWave] else [])
   | none => []) ++
  (if accentDesc ≠ "" then [accentDesc] else [])

/-- The combined hair phrase both builders produce: the space-joined
`hairParts` plus the literal `" hair"`, with `" parted <part>"` appended
when a hair part is present and is not the literal `"none"`; `none` when
there are no hair parts at all. -/
def hairPhrase (specs : Option HairSpecifics) (accentDesc : String) :
    Option String :=
  let hairParts := hairPhraseParts specs accentDesc
  if hairParts.isEmpty then none
  else
    some (joinSep " " hairParts ++ " hair" ++
      (match specs with
       | some h =>
         if h.hairPart ≠ "" ∧ h.hairPart ≠ "none" then " parted " ++ h.hairPart
         else ""
       | none => ""))

/-- The positive pushes of `buildLockedIdentityPromptPair` in source
order; they read only `is`-projections, never the fallible `not`
values. -/
def pairPositive (locked : LockedSubjectIdentity) : List String :=
  (if locked.species ≠ "" then [locked.species] else []) ++
  (if locked.estimatedAge ≠ "" then [locked.estimatedAge] else []) ++
  (match locked.faceGeometry with
   | some geo => geoPhrases (unlockGeo geo)
   | none => []) ++
  (if locked.primaryColor.is.description ≠ "" then
    [locked.primaryColor.is.description ++ " eyes"] else []) ++
  (if locked.secondaryColor.is.description ≠ "" then
    [locked.secondaryColor.is.description ++ " skin"] else []) ++
  (match hairPhrase (locked.hairSpecifics.map unlockHair)
      locked.accentColor.is.description with
   | some hairDesc => [hairDesc]
   | none => []) ++
  (if locked.bodyStructure.is ≠ "" then [locked.bodyStructure.is ++ " build"] else []) ++
  (if locked.texture.is ≠ "" ∧ locked.hairSpecifics = none then
    [locked.texture.is] else []) ++
  (if locked.distinguishingFeatures ≠ [] then
    [joinSep ", " (locked.distinguishingFeatures.take 3)] else []) ++
  (if locked.fixedSeed ≠ "" then ["\"" ++ locked.fixedSeed ++ "\""] else [])

/-- The negative pushes of `buildLockedIdentityPromptPair` in source
order; every evaluated `not.filter(Boolean)` can throw (the guards
deciding which are evaluated read only `is`-projections). -/
def pairNegativesRaw (locked : LockedSubjectIdentity) : JSOutcome (List String) :=
  jsAppend
    (match locked.faceGeometry with
     | some geo => geoNegs geo
     | none => .ok [])
    (jsAppend
      (if locked.primaryColor.is.description ≠ "" then
        notFilter locked.primaryColor.not else .ok [])
      (jsAppend
        (if locked.secondaryColor.is.description ≠ "" then
          notFilter locked.secondaryColor.not else .ok [])
        (jsAppend
          (match locked.hairSpecifics with
           | some hair =>
             jsAppend
               (if hair.hairLength.is ≠ "" then
                 notFilter hair.hairLength.not else .ok [])
               (if hair.hairWave.is ≠ "" then
                 notFilter hair.hairWave.not else .ok [])
           | none => .ok [])
          (jsAppend
            (if locked.accentColor.is.description ≠ "" then
              notFilter locked.accentColor.not else .ok [])
            (jsAppend
              (if (hairPhraseParts (locked.hairSpecifics.map unlockHair)
                    locked.accentColor.is.description) ≠ [] then
                (match locked.hairSpecifics with
                 | some hair =>
                   if hair.hairPart.is ≠ "" ∧ hair.hairPart.is ≠ "none" then
                     notFilter hair.hairPart.not
                   else .ok []
                 | none => .ok [])
               else .ok [])
              (jsAppend
                (if locked.bodyStructure.is ≠ "" then
                  notFilter locked.bodyStructure.not else .ok [])
                (jsAppend
                  (if locked.texture.is ≠ "" ∧ locked.hairSpecifics = none then
                    notFilter locked.texture.not else .ok [])
                  (.ok (locked.identityNegatives.getD [])))))))))

/-- `buildLockedIdentityPromptPair` (hydration layer): ordered positive
phrases and deduplicated negatives, walking the locked identity in the
fixed source order.  A throw in any evaluated `not.filter(Boolean)`
aborts the call; the positive pushes do not depend on the `not` reads, so
on a normal return they are the pure `pairPositive` list. -/
def buildLockedIdentityPromptPair (locked : LockedSubjectIdentity) :
    JSOutcome PromptPair :=
  match pairNegativesRaw locked with
  | .thrown => .thrown
  | .ok negative =>
    .ok { positive := (pairPositive locked).filter (fun s => s ≠ "")
          negative := jsSetDedup (negative.filter (fun s => s ≠ "")) }

/-- `getDriftNegatives` (hydration layer): hydrate, build the pair, and
truncate the negatives (source default for `maxNegatives` is 15). -/
def getDriftNegatives (identity : SubjectIdentity) (maxNegatives : ℕ) :
    JSOutcome (List String) :=
  match buildLockedIdentityPromptPair (hydrateIdentity identity) with
  | .thrown => .thrown
  | .ok pair => .ok (pair.negative.take maxNegatives)

-- ============================================================================
-- Prompt generators (src/utils/promptGenerators.ts)
-- ============================================================================

/-- `SDMJIncludeSections` from src/types.ts. -/
structure SDMJIncludeSections where
  subject : Bool
  styleAnchor : Bool
  colorPalette : Bool
  secondaryStyles : Bool
  technical : Bool
  negative : Bool
deriving DecidableEq

/-- `UniversalIncludeSections` from src/types.ts. -/
structure UniversalIncludeSections where
  meta : Bool
  subject : Bool
  scene : Bool
  technical : Bool
  palette : Bool
  details : Bool
  textContent : Bool
  negative : Bool
deriving DecidableEq

/-- `DEFAULT_SDMJ_SECTIONS` (src/utils/promptGenerators.ts:6-13). -/
def DEFAULT_SDMJ_SECTIONS : SDMJIncludeSections :=
  { subject := true, styleAnchor := true, colorPalette := true
    secondaryStyles := true, technical := true, negative := true }

/-- `DEFAULT_UNIVERSAL_SECTIONS` (src/utils/promptGenerators.ts:16-25):
all sections on except the overlay text. -/
def DEFAULT_UNIVERSAL_SECTIONS : UniversalIncludeSections :=
  { meta := true, subject := true, scene := true, technical := true
    palette := true, details := true, textContent := false, negative := true }

/-- `Partial<ExportOptions>` as consumed by the generators: either section
override may be absent (the unused `format` discriminator is omitted). -/
structure ExportOptionsP where
  sdmjSections : Option SDMJIncludeSections
  universalSections : Option UniversalIncludeSections
deriving DecidableEq

/-- The `parts` list of `buildIdentityLock`
(src/utils/promptGenerators.ts:43-113): species, age, the comma-joined
face-geometry phrases as one part, eye colour, skin tone, the combined
hair phrase (falling back to `texture` when there are no hair parts),
structure only when face geometry is absent, the first 3 distinguishing
features as one comma-joined part, and the quoted fixed seed. -/
def identityLockParts (identity : SubjectIdentity) : List String :=
  (if identity.species ≠ "" then [identity.species] else []) ++
  (if identity.estimatedAge ≠ "" then [identity.estimatedAge] else []) ++
  (match identity.faceGeometry with
   | some geo =>
     let geoParts := geoPhrases geo
     if geoParts.isEmpty then [] else [joinSep ", " geoParts]
   | none => []) ++
  (if identity.primaryColor.description ≠ "" then
    [identity.primaryColor.description ++ " eyes"] else []) ++
  (if identity.secondaryColor.description ≠ "" then
    [identity.secondaryColor.description ++ " skin"] else []) ++
  (match hairPhrase identity.hairSpecifics identity.accentColor.description with
   | some hairDesc => [hairDesc]
   | none => if identity.texture ≠ "" then [identity.texture] else []) ++
  (if identity.faceGeometry = none ∧ identity.bodyStructure ≠ "" then
    [identity.bodyStructure] else []) ++
  (if identity.distinguishingFeatures ≠ [] then
    [joinSep ", " (identity.distinguishingFeatures.take 3)] else []) ++
  (if identity.fixedSeed ≠ "" then ["\"" ++ identity.fixedSeed ++ "\""] else [])

/-- `buildIdentityLock` (src/utils/promptGenerators.ts:43-114). -/
def buildIdentityLock (identity : SubjectIdentity) : String :=
  let parts := identityLockParts identity
  if parts.isEmpty then "" else "[IDENTITY: " ++ joinSep ", " parts ++ "]"

/-- `getIdentityNegatives` (src/utils/promptGenerators.ts:121-136): up to
5 user negatives, then the first 10 drift negatives, deduplicated
first-occurrence, truncated to 12; a throw inside the drift builder
propagates. -/
def getIdentityNegatives (identity : Option SubjectIdentity) :
    JSOutcome (List String) :=
  match identity with
  | none => .ok []
  | some identity =>
    match getDriftNegatives identity 10 with
    | .thrown => .thrown
    | .ok driftNegs =>
      .ok ((jsSetDedup (((identity.identityNegatives.getD []).take 5) ++
        driftNegs)).take 12)

/-- The `parts` list accumulated by `generateUniversalPrompt`
(src/utils/promptGenerators.ts:147-208); the `negative` flag plays no role
here. -/
def universalPromptParts (data : ImageMetadata)
    (sections : UniversalIncludeSections) : List String :=
    (if sections.meta then
      (if data.meta.intent ≠ "" then [data.meta.intent] else []) ++
      (if data.meta.quality ≠ "" then [data.meta.quality] else [])
     else []) ++
    (if sections.subject then
      (if data.subject.archetype ≠ "" then [data.subject.archetype] else []) ++
      (if data.subject.description ≠ "" then [data.subject.description] else []) ++
      (if data.subject.expression ≠ "" then [data.subject.expression] else []) ++
      (if data.subject.pose ≠ "" then [data.subject.pose] else []) ++
      (if data.subject.attire ≠ "" then [data.subject.attire] else []) ++
      (match data.subject.identity with
       | some identity =>
         let lockStr := buildIdentityLock identity
         if lockStr ≠ "" then [lockStr] else []
       | none => [])
     else []) ++
    (if sections.scene then
      (if data.scene.setting ≠ "" then [data.scene.setting] else []) ++
      (if data.scene.elements ≠ [] then [joinSep ", " data.scene.elements] else []) ++
      (if data.scene.atmosphere ≠ "" then [data.scene.atmosphere] else [])
     else []) ++
    (if sections.technical then
      (if data.technical.shot ≠ "" then [data.technical.shot] else []) ++
      (if data.technical.lens ≠ "" then ["shot with " ++ data.technical.lens] else []) ++
      (if data.technical.lighting ≠ "" then [data.technical.lighting] else []) ++
      (if data.technical.render ≠ "" then [data.technical.render] else [])
     else []) ++
    (if sections.palette then
      (if data.palette.mood ≠ "" then [data.palette.mood] else []) ++
      (if data.palette.colors ≠ [] then
        ["color palette: " ++
          joinSep ", " (data.palette.colors.map formatColorWithModifier)]
       else [])
     else []) ++
    (if sections.details then
      (if data.details.textures ≠ [] then [joinSep ", " data.details.textures] else []) ++
      (if data.details.accents ≠ [] then [joinSep ", " data.details.accents] else [])
     else []) ++
    (if sections.textContent then
      (if data.text_content.overlay ≠ "" ∧ data.text_content.overlay ≠ "None" then
        ["text: \"" ++ data.text_content.overlay ++ "\"" ++
          (if data.text_content.style ≠ "" then
            " in " ++ data.text_content.style ++ " font"
           else "")]
       else [])
     else [])

/-- `generateUniversalPrompt` (src/utils/promptGenerators.ts:142-233).
`getIdentityNegatives` is called inside the negative-section branch, so
only that branch can propagate its throw. -/
def generateUniversalPrompt (data : ImageMetadata)
    (options : Option ExportOptionsP) : JSOutcome String :=
  let sections := (options.bind (fun o => o.universalSections)).getD
    DEFAULT_UNIVERSAL_SECTIONS
  let prompt := joinSep ", "
    ((universalPromptParts data sections).filter (fun s => s ≠ ""))
  if sections.negative then
    match getIdentityNegatives data.subject.identity with
    | .thrown => .thrown
    | .ok identityNegs =>
      let negParts :=
        (if data.negative ≠ "" then [data.negative] else []) ++
        (if identityNegs ≠ [] then [joinSep ", " identityNegs] else [])
      .ok (if negParts ≠ [] then prompt ++ "\n\n--neg " ++ joinSep ", " negParts
           else prompt)
  else .ok prompt

/-- `data.negative.split(',').map(t => t.trim()).filter(Boolean)` in the
SD/MJ generator's negative section. -/
def splitCommaTrim (s : String) : List String :=
  ((jsSplitChar ',' s).map jsTrim).filter (fun t => t ≠ "")

/-- `generateSDMJPrompt` (src/utils/promptGenerators.ts:247-354).
`toLowerCase` is modelled by `String.toLower` (ASCII data only).  The
legacy aliases `generateSDPrompt`/`generateMJPrompt` are this same
function. -/
def generateSDMJPrompt (data : ImageMetadata)
    (options : Option ExportOptionsP) : JSOutcome String :=
  let sections := (options.bind (fun o => o.sdmjSections)).getD
    DEFAULT_SDMJ_SECTIONS
  let parts :=
    (if sections.subject then
      let subjectParts :=
        (if data.subject.archetype ≠ "" then [data.subject.archetype] else []) ++
        (match data.subject.identity with
         | some identity =>
           let lockStr := buildIdentityLock identity
           if lockStr ≠ "" then [lockStr] else []
         | none => []) ++
        (if data.subject.description ≠ "" then [data.subject.description] else []) ++
        (if data.subject.pose ≠ "" then [data.subject.pose] else []) ++
        (if data.subject.attire ≠ "" then [data.subject.attire] else []) ++
        (if data.scene.setting ≠ "" then ["in " ++ data.scene.setting] else [])
      if subjectParts ≠ [] then [joinSep " " subjectParts] else []
     else []) ++
    (if sections.styleAnchor ∧ data.technical.render ≠ "" then
      ["in the style of " ++ data.technical.render] else []) ++
    (if sections.colorPalette ∧ data.palette.colors.length ≥ 2 then
      (let palette := formatColorPalette data.palette.colors
       if palette ≠ "" then [palette] else [])
     else []) ++
    (if sections.secondaryStyles then
      ((data.details.textures.take 2) ++
       (if data.scene.atmosphere ≠ "" then [data.scene.atmosphere] else []) ++
       (if data.palette.mood ≠ "" then [data.palette.mood] else []) ++
       (data.details.accents.take 1)).take 3
     else []) ++
    (if sections.technical then
      (if data.technical.shot ≠ "" then [data.technical.shot] else []) ++
      (if data.technical.lens ≠ "" then [data.technical.lens] else [])
     else [])
  let prompt := jsToLowerCase (joinSep ", " ((parts.take 8).filter (fun s => s ≠ "")))
  let prompt :=
    if data.meta.aspect_ratio ≠ "" then
      prompt ++ " --ar " ++ data.meta.aspect_ratio
    else prompt
  if sections.negative then
    match getIdentityNegatives data.subject.identity with
    | .thrown => .thrown
    | .ok identityNegs =>
      let negParts :=
        (if data.negative ≠ "" then splitCommaTrim data.negative else []) ++
        identityNegs
      .ok (if negParts ≠ [] then
            prompt ++ " --no " ++ joinSep ", " ((jsSetDedup negParts).take 8)
           else prompt)
  else .ok prompt

-- ============================================================================
-- Test fixture (src/tests/fixtures/testMetadata.ts)
-- ============================================================================

/-- The `completeMetadata` fixture from the test suite. -/
def completeMetadata : ImageMetadata :=
  { meta :=
      { intent := "cinematic portrait", aspect_ratio := "16:9"
        quality := "masterpiece, best quality" }
    subject :=
      { archetype := "mysterious wanderer"
        description := "weathered face with deep eyes"
        expression := "contemplative gaze"
        pose := "standing tall"
        attire := "tattered cloak and leather armor"
        identity := none }
    scene :=
      { setting := "ancient ruins at sunset"
        atmosphere := "ethereal and melancholic"
        elements := ["crumbling pillars", "scattered leaves", "distant mountains"] }
    technical :=
      { shot := "medium close-up", lens := "85mm f/1.4"
        lighting := "golden hour rim lighting", render := "photorealistic" }
    palette := { colors := ["#8B4513", "#FFD700", "#4A4A4A"], mood := "warm and dramatic" }
    details :=
      { textures := ["weathered leather", "rough stone"]
        accents := ["glowing runes", "dust particles"] }
    negative := "blurry, low quality, cartoon, anime"
    text_content := { overlay := "None", style := "" } }

-- ============================================================================
-- Re-embedding an ImageMetadata as a raw JS value (for idempotence claims)
-- ============================================================================

/-- An `IdentityColor` viewed again as a raw JS object. -/
def embedIdentityColor (c : IdentityColor) : JSValue :=
  .obj [("description", .str c.description), ("hex", .str c.hex)]

/-- A `FaceGeometry` viewed again as a raw JS object. -/
def embedFaceGeometry (g : FaceGeometry) : JSValue :=
  .obj [("faceShape", .str g.faceShape), ("eyeShape", .str g.eyeShape),
        ("browStyle", .str g.browStyle), ("noseShape", .str g.noseShape),
        ("lipShape", .str g.lipShape)]

/-- A `HairSpecifics` viewed again as a raw JS object. -/
def embedHairSpecifics (h : HairSpecifics) : JSValue :=
  .obj [("hairLength", .str h.hairLength), ("hairWave", .str h.hairWave),
        ("hairPart", .str h.hairPart)]

/-- A `DNAConfidence` viewed again as a raw JS object. -/
def embedConfidence (c : DNAConfidence) : JSValue :=
  .obj [("overall", .num c.overall), ("primaryColor", .num c.primaryColor),
        ("secondaryColor", .num c.secondaryColor),
        ("accentColor", .num c.accentColor),
        ("faceGeometry", .num c.faceGeometry),
        ("hairSpecifics", .num c.hairSpecifics)]

/-- A key/value entry present only when the optional value is. -/
def embedOptEntry (key : String) : Option JSValue → List (String × JSValue)
  | some v => [(key, v)]
  | none => []

/-- The optional-field entries of an embedded identity (absent optional
fields have no key). -/
def embedIdentityTail (i : SubjectIdentity) : List (String × JSValue) :=
  embedOptEntry "faceGeometry" (i.faceGeometry.map embedFaceGeometry) ++
  (embedOptEntry "hairSpecifics" (i.hairSpecifics.map embedHairSpecifics) ++
   (embedOptEntry "identityNegatives"
      (i.identityNegatives.map (fun l => .arr (l.map .str))) ++
    embedOptEntry "confidence" (i.confidence.map embedConfidence)))

/-- A `SubjectIdentity` viewed again as a raw JS object; absent optional
fields have no key. -/
def embedIdentity (i : SubjectIdentity) : JSValue :=
  .obj ([("primaryColor", embedIdentityColor i.primaryColor),
         ("secondaryColor", embedIdentityColor i.secondaryColor),
         ("accentColor", embedIdentityColor i.accentColor),
         ("texture", .str i.texture),
         ("structure", .str i.bodyStructure),
         ("distinguishingFeatures", .arr (i.distinguishingFeatures.map .str)),
         ("estimatedAge", .str i.estimatedAge),
         ("species", .str i.species),
         ("fixedSeed", .str i.fixedSeed)] ++
        embedIdentityTail i)

/-- An `ImageMetadata` fed back in as a raw JS value ("the normalized
result treated as raw input"). -/
def embedMetadata (md : ImageMetadata) : JSValue :=
  .obj [("meta",
          .obj [("intent", .str md.meta.intent),
                ("aspect_ratio", .str md.meta.aspect_ratio),
                ("quality", .str md.meta.quality)]),
        ("subject",
          .obj ([("archetype", .str md.subject.archetype),
                 ("description", .str md.subject.description),
                 ("expression", .str md.subject.expression),
                 ("pose", .str md.subject.pose),
                 ("attire", .str md.subject.attire)] ++
                embedOptEntry "identity" (md.subject.identity.map embedIdentity))),
        ("scene",
          .obj [("setting", .str md.scene.setting),
                ("atmosphere", .str md.scene.atmosphere),
                ("elements", .arr (md.scene.elements.map .str))]),
        ("technical",
          .obj [("shot", .str md.technical.shot),
                ("lens", .str md.technical.lens),
                ("lighting", .str md.technical.lighting),
                ("render", .str md.technical.render)]),
        ("palette",
          .obj [("colors", .arr (md.palette.colors.map .str)),
                ("mood", .str md.palette.mood)]),
        ("details",
          .obj [("textures", .arr (md.details.textures.map .str)),
                ("accents", .arr (md.details.accents.map .str))]),
        ("negative", .str md.negative),
        ("text_content",
          .obj [("overlay", .str md.text_content.overlay),
                ("style", .str md.text_content.style)])]

/-- No element of the list is a normalization sentinel string. -/
def listNoSentinel (l : List String) : Bool :=
  l.all (fun s => s ≠ "None" ∧ s ≠ "none")

/-- None of the metadata's array fields contains a sentinel string
(`"None"`/`"none"`).  Normalization can only violate this through
non-string array elements whose stringification is itself a sentinel. -/
def mdNoSentinelArrays (md : ImageMetadata) : Bool :=
  listNoSentinel md.scene.elements &&
  listNoSentinel md.palette.colors &&
  listNoSentinel md.details.textures &&
  listNoSentinel md.details.accents &&
  (match md.subject.identity with
   | some i =>
     listNoSentinel i.distinguishingFeatures &&
     (match i.identityNegatives with
      | some l => listNoSentinel l
      | none => true)
   | none => true)

-- ============================================================================
-- Spec-level definitions (written from the claims' wording, for the
-- refinement-style claims)
-- ============================================================================

/-- The staged lookup exactly as the claim words it: empty/whitespace-only
value gives the default triple; otherwise lowercase and trim, then
(1) exact key match, (2) first entry in declaration order whose key is a
substring of the value or contains the value, (3) first word (split on
whitespace/hyphen) longer than 2 characters with an exact key match,
(4) otherwise, or for an unrecognized category, the default triple. -/
def inferNegativesSpec (category value : String) : String × String × String :=
  if jsTrim value = "" then ("different", "changed", "altered")
  else
    match categoryMaps category with
    | none => ("different", "changed", "altered")
    | some table =>
      let v := jsTrim (jsToLowerCase value)
      match List.lookup v table with
      | some t => t
      | none =>
        match table.find? (fun kv => jsIncludes v kv.1 || jsIncludes kv.1 v) with
        | some kv => kv.2
        | none =>
          match (splitWsHyphen v).find?
              (fun w => decide (w.length > 2) && (List.lookup w table).isSome) with
          | some w => (List.lookup w table).getD ("different", "changed", "altered")
          | none => ("different", "changed", "altered")

/-- The first reference color attaining the minimum squared RGB distance
("closest by Euclidean RGB distance, ties broken by declaration order"). -/
def firstMinColor (rgb : ℤ × ℤ × ℤ) : Option String :=
  (BASE_COLORS.find? (fun c =>
    BASE_COLORS.all (fun c2 => distSq rgb c.2 ≤ distSq rgb c2.2))).map
    (fun c => c.1)

/-- The claim's notion of a valid hex color: an optional leading `#`
followed by exactly 3 or exactly 6 hexadecimal digits. -/
def isValidHexColor (s : String) : Bool :=
  let body :=
    match s.data with
    | '#' :: rest => rest
    | l => l
  (body.length = 3 ∨ body.length = 6) ∧ body.all (fun c => (hexDigit? c).isSome)

/-- Number of (possibly overlapping) occurrences of `pat` in `s`. -/
def countSubstr (s pat : String) : ℕ :=
  ((List.range (s.data.length + 1)).filter
    (fun i => pat.data.isPrefixOf (s.data.drop i))).length

/-- Does `s` end with `suffix`? -/
def strEndsWith (s suffix : String) : Bool :=
  suffix.data.isSuffixOf s.data

/-- The payload of a normal outcome, with a default for a thrown one;
used only to state concrete-input facts, always next to an explicit
`≠ .thrown` conjunct. -/
def okD {α : Type} (d : α) : JSOutcome α → α
  | .ok a => a
  | .thrown => d

-- ============================================================================
-- Concrete inputs used by counterexamples and witnesses
-- ============================================================================

/-- A `SubjectIdentity` with every field empty/absent, for building small
concrete identities. -/
def blankIdentity : SubjectIdentity :=
  { primaryColor := { description := "", hex := "" }
    secondaryColor := { description := "", hex := "" }
    accentColor := { description := "", hex := "" }
    texture := "", bodyStructure := "", distinguishingFeatures := []
    estimatedAge := "", species := "", fixedSeed := ""
    faceGeometry := none, hairSpecifics := none
    identityNegatives := none, confidence := none }

/-- Identity with only a body structure, separating the two phrase
builders. -/
def structureOnlyIdentity : SubjectIdentity :=
  { blankIdentity with bodyStructure := "slim" }

/-- Identity whose three color descriptions alone yield 9 distinct drift
negatives and which carries no user-authored negatives. -/
def threeColorIdentity : SubjectIdentity :=
  { blankIdentity with
      primaryColor := { description := "violet", hex := "" }
      secondaryColor := { description := "fair", hex := "" }
      accentColor := { description := "auburn", hex := "" } }

/-- A raw input whose normalization is not a fixpoint: the inner array
stringifies to the sentinel `"None"`, which the second pass filters out. -/
def nestedNoneRaw : JSValue :=
  .obj [("scene", .obj [("elements", .arr [.arr [.str "None"]])])]

-- ============================================================================
-- Invariants of normalized data (used for the idempotence analysis)
-- ============================================================================

/-- A string that is not a normalization sentinel. -/
def GoodStr (s : String) : Prop :=
  s ≠ "None" ∧ s ≠ "none"

/-- Both fields of an identity color are sentinel-free. -/
def GoodColor (c : IdentityColor) : Prop :=
  GoodStr c.description ∧ GoodStr c.hex

/-- A face geometry as produced by normalization: sentinel-free fields,
at least one non-empty. -/
def GoodGeo : Option FaceGeometry → Prop
  | none => True
  | some g =>
    (GoodStr g.faceShape ∧ GoodStr g.eyeShape ∧ GoodStr g.browStyle ∧
      GoodStr g.noseShape ∧ GoodStr g.lipShape) ∧
    (g.faceShape ≠ "" ∨ g.eyeShape ≠ "" ∨ g.browStyle ≠ "" ∨
      g.noseShape ≠ "" ∨ g.lipShape ≠ "")

/-- Hair specifics as produced by normalization. -/
def GoodHair : Option HairSpecifics → Prop
  | none => True
  | some h =>
    (GoodStr h.hairLength ∧ GoodStr h.hairWave ∧ GoodStr h.hairPart) ∧
    (h.hairLength ≠ "" ∨ h.hairWave ≠ "" ∨ h.hairPart ≠ "")

/-- Confidence as produced by normalization: all clamped into `[0,1]`,
kept only when `overall > 0`. -/
def GoodConf : Option DNAConfidence → Prop
  | none => True
  | some c =>
    (0 ≤ c.overall ∧ c.overall ≤ 1) ∧
    (0 ≤ c.primaryColor ∧ c.primaryColor ≤ 1) ∧
    (0 ≤ c.secondaryColor ∧ c.secondaryColor ≤ 1) ∧
    (0 ≤ c.accentColor ∧ c.accentColor ≤ 1) ∧
    (0 ≤ c.faceGeometry ∧ c.faceGeometry ≤ 1) ∧
    (0 ≤ c.hairSpecifics ∧ c.hairSpecifics ≤ 1) ∧
    c.overall > 0

/-- An identity as produced by normalization. -/
def GoodIdentity : Option SubjectIdentity → Prop
  | none => True
  | some i =>
    (i.primaryColor.description ≠ "" ∨ i.fixedSeed ≠ "") ∧
    GoodColor i.primaryColor ∧ GoodColor i.secondaryColor ∧
    GoodColor i.accentColor ∧
    GoodStr i.texture ∧ GoodStr i.bodyStructure ∧
    GoodStr i.estimatedAge ∧ GoodStr i.species ∧ GoodStr i.fixedSeed ∧
    GoodGeo i.faceGeometry ∧ GoodHair i.hairSpecifics ∧
    (match i.identityNegatives with
     | none => True
     | some l => l ≠ []) ∧
    GoodConf i.confidence

/-- The structural invariants `normalizeMetadata` guarantees on its
output (array contents excepted — non-string elements can stringify to
sentinels, which is exactly the idempotence counterexample). -/
def GoodMd (md : ImageMetadata) : Prop :=
  GoodStr md.meta.intent ∧ GoodStr md.meta.aspect_ratio ∧
  GoodStr md.meta.quality ∧
  GoodStr md.subject.archetype ∧ GoodStr md.subject.description ∧
  GoodStr md.subject.expression ∧ GoodStr md.subject.pose ∧
  GoodStr md.subject.attire ∧
  GoodStr md.scene.setting ∧ GoodStr md.scene.atmosphere ∧
  GoodStr md.technical.shot ∧ GoodStr md.technical.lens ∧
  GoodStr md.technical.lighting ∧ GoodStr md.technical.render ∧
  GoodStr md.palette.mood ∧ GoodStr md.negative ∧
  GoodStr md.text_content.overlay ∧ GoodStr md.text_content.style ∧
  GoodIdentity md.subject.identity

-- ============================================================================
-- Shared lemmas
-- ============================================================================

theorem normalizeString_not_sentinel (v : JSValue) :
    normalizeString v ≠ "None" ∧ normalizeString v ≠ "none" := by
  cases v with
  | str s =>
    by_cases h : s = "None" ∨ s = "none"
    · simp [normalizeString, h]
    · push_neg at h
      simp [normalizeString, h.1, h.2]
  | null => simp [normalizeString]
  | undef => simp [normalizeString]
  | bool b => simp [normalizeString]
  | num q => simp [normalizeString]
  | arr xs => simp [normalizeString]
  | obj fs => simp [normalizeString]

theorem normalizeString_of_not_sentinel {s : String}
    (h1 : s ≠ "None") (h2 : s ≠ "none") : normalizeString (.str s) = s := by
  simp [normalizeString, h1, h2]

-- ============================================================================
-- Claim theorems
-- ============================================================================

set_option maxRecDepth 20000

/-- C6: `normalizeString` returns `""` for `null`, `undefined`, the
literals `"None"`/`"none"` and every non-string value (booleans, numbers,
arrays, objects); it returns any other string unchanged (including
whitespace-only strings); and its result is never `"None"` or `"none"`
(`null`/`undefined` cannot be results at all, the return type being
`String`). -/
theorem normalizeString_contract :
    (normalizeString .null = "" ∧ normalizeString .undef = "" ∧
      normalizeString (.str "None") = "" ∧ normalizeString (.str "none") = "" ∧
      (∀ b, normalizeString (.bool b) = "") ∧
      (∀ q, normalizeString (.num q) = "") ∧
      (∀ xs, normalizeString (.arr xs) = "") ∧
      (∀ fs, normalizeString (.obj fs) = "")) ∧
    (∀ s, s ≠ "None" → s ≠ "none" → normalizeString (.str s) = s) ∧
    (∀ v, normalizeString v ≠ "None" ∧ normalizeString v ≠ "none") :=
  ⟨⟨rfl, rfl, rfl, rfl, fun _ => rfl, fun _ => rfl, fun _ => rfl, fun _ => rfl⟩,
   fun _ h1 h2 => normalizeString_of_not_sentinel h1 h2,
   normalizeString_not_sentinel⟩

/-- Witness for C6: a whitespace-only string is preserved verbatim. -/
theorem normalizeString_contract_witness :
    ("  " ≠ "None") ∧ ("  " ≠ "none") ∧ normalizeString (.str "  ") = "  " :=
  ⟨by decide, by decide,
   normalizeString_contract.2.1 "  " (by decide) (by decide)⟩

/-- C10: the element filter of `normalizeArray` removes only `null`,
`"None"` and `"none"`; an `undefined` element survives and is stringified,
so it appears as the string `"undefined"` at its position in the
output. -/
theorem normalizeArray_keeps_undefined (pre post : List JSValue) :
    normalizeArray (.arr (pre ++ .undef :: post)) =
      normalizeArray (.arr pre) ++ "undefined" :: normalizeArray (.arr post) := by
  simp [normalizeArray, List.filter_append, keepElem, stringifyElem, jsToString]

/-- C1 (code bug): `normalizeMetadata` is not total.  The top-level
property read `raw.meta` throws a `TypeError` on `null`/`undefined`
(modelled as `none`), contradicting the spec's "never fails"; every other
non-object input (number, string, boolean, array) does return the
all-empty `ImageMetadata`, as does `{}`. -/
theorem normalizeMetadata_totality_status :
    normalizeMetadata .null = none ∧
    normalizeMetadata .undef = none ∧
    (∀ q, normalizeMetadata (.num q) = some emptyImageMetadata) ∧
    (∀ s, normalizeMetadata (.str s) = some emptyImageMetadata) ∧
    (∀ b, normalizeMetadata (.bool b) = some emptyImageMetadata) ∧
    (∀ xs, normalizeMetadata (.arr xs) = some emptyImageMetadata) ∧
    normalizeMetadata (.obj []) = some emptyImageMetadata :=
  ⟨rfl, rfl, fun _ => rfl, fun _ => rfl, fun b => by cases b <;> rfl,
   fun _ => rfl, rfl⟩

/-- C3 counterexample: on the `completeMetadata` fixture with default
sections, the SD/MJ prompt is produced normally (the fixture has no
identity, so the fallible drift path is off the evaluated path) and does
not end with `--ar 16:9` — the `--no` block follows the `--ar` parameter
(the fixture's `negative` is non-empty and the negative section defaults
to on). -/
theorem generateSDMJPrompt_fixture_not_end_ar :
    generateSDMJPrompt completeMetadata none ≠ .thrown ∧
    strEndsWith (okD "" (generateSDMJPrompt completeMetadata none))
      "--ar 16:9" = false := by
  decide

/-- C3 (amended): on the `completeMetadata` fixture with default sections
the SD/MJ prompt is produced normally and contains "in the style of
photorealistic" exactly once, contains the brown/gold pairing "brown and
light gold", contains (rather than ends with) the `--ar 16:9` parameter,
and ends with the `--no` block whose deduplicated term list has at most 8
entries. -/
theorem generateSDMJPrompt_fixture_amended :
    generateSDMJPrompt completeMetadata none ≠ .thrown ∧
    countSubstr (okD "" (generateSDMJPrompt completeMetadata none))
      "in the style of photorealistic" = 1 ∧
    jsIncludes (okD "" (generateSDMJPrompt completeMetadata none))
      "brown and light gold" = true ∧
    jsIncludes (okD "" (generateSDMJPrompt completeMetadata none))
      " --ar 16:9 " = true ∧
    strEndsWith (okD "" (generateSDMJPrompt completeMetadata none))
      (" --no " ++ joinSep ", "
        ((jsSetDedup (splitCommaTrim completeMetadata.negative ++
          okD [] (getIdentityNegatives completeMetadata.subject.identity))).take 8))
      = true ∧
    ((jsSetDedup (splitCommaTrim completeMetadata.negative ++
      okD [] (getIdentityNegatives completeMetadata.subject.identity))).take 8).length
      ≤ 8 ∧
    ((jsSetDedup (splitCommaTrim completeMetadata.negative ++
      okD [] (getIdentityNegatives completeMetadata.subject.identity))).take 8).Nodup := by
  decide

/-- C4 counterexample: for the identity whose only datum is
`structure = "slim"`, `buildIdentityLock` renders the structure verbatim
(`[IDENTITY: slim]`) while the hydrated positive-phrase builder returns
normally and renders `"slim build"`, so the bracketed parts and the
positive sequence differ. -/
theorem identityLock_vs_hydrated_positive_cex :
    buildIdentityLock structureOnlyIdentity = "[IDENTITY: slim]" ∧
    buildLockedIdentityPromptPair (hydrateIdentity structureOnlyIdentity) ≠
      .thrown ∧
    (okD (⟨[], []⟩ : PromptPair)
      (buildLockedIdentityPromptPair (hydrateIdentity structureOnlyIdentity))).positive
      = ["slim build"] ∧
    identityLockParts structureOnlyIdentity ≠
      (okD (⟨[], []⟩ : PromptPair)
        (buildLockedIdentityPromptPair (hydrateIdentity structureOnlyIdentity))).positive := by
  decide

/-- C7 counterexample: an identity with no user-authored negatives whose
drift inference alone yields 9 distinct entries — the combined identity
negative list then contains 9 drift-inferred terms, more than the claimed
"up to 7". -/
theorem identityNegatives_nine_drift_cex :
    threeColorIdentity.identityNegatives = none ∧
    getIdentityNegatives (some threeColorIdentity) =
      .ok ["blue", "purple", "lavender", "tan", "dark", "olive",
           "brown", "red", "copper"] := by
  decide

/-- C2 counterexample: `inferNegatives("eyeColor","constructor")` does not
return 3 strings — the exact-match lookup `map[normalized]` is a truthy
check that hits the inherited `Object.prototype.constructor` (the
`Object` function), which the source returns as-is. -/
theorem inferNegatives_prototype_cex :
    inferNegatives "eyeColor" "constructor" = .ok (.fn "Object") ∧
    ∀ t : String × String × String,
      inferNegatives "eyeColor" "constructor" ≠ .ok (.arr3 t) := by
  refine ⟨by decide, ?_⟩
  intro t h
  rw [show inferNegatives "eyeColor" "constructor" = .ok (.fn "Object") from
    by decide] at h
  injection h with h2
  exact MapVal.noConfusion h2

theorem find?_congr_on {α : Type} (l : List α) (p q : α → Bool)
    (h : ∀ a ∈ l, p a = q a) : l.find? p = l.find? q := by
  induction l with
  | nil => rfl
  | cons a t ih =>
    have ha := h a (List.mem_cons_self a t)
    rw [List.find?_cons, List.find?_cons, ← ha]
    cases hpa : p a with
    | true => rfl
    | false => exact ih fun b hb => h b (List.mem_cons_of_mem a hb)

theorem exists_first_min {α : Type} (d : α → ℤ) :
    ∀ (t : List α), t ≠ [] → ∃ c ∈ t, ∀ c2 ∈ t, d c ≤ d c2 := by
  intro t
  induction t with
  | nil => intro h; exact absurd rfl h
  | cons a t ih =>
    intro _
    by_cases ht : t = []
    · subst ht
      exact ⟨a, List.mem_cons_self a [], by simp⟩
    · obtain ⟨c, hc, hmin⟩ := ih ht
      by_cases hac : d a ≤ d c
      · refine ⟨a, List.mem_cons_self a t, ?_⟩
        intro c2 hc2
        rcases List.mem_cons.mp hc2 with rfl | hc2
        · exact le_refl _
        · exact le_trans hac (hmin c2 hc2)
      · refine ⟨c, List.mem_cons_of_mem a hc, ?_⟩
        intro c2 hc2
        rcases List.mem_cons.mp hc2 with rfl | hc2
        · exact le_of_lt (lt_of_not_le hac)
        · exact hmin c2 hc2

theorem find?_cons_true {α : Type} (p : α → Bool) (a : α) (l : List α)
    (h : p a = true) : (a :: l).find? p = some a := by
  simp [List.find?_cons, h]

theorem find?_cons_false {α : Type} (p : α → Bool) (a : α) (l : List α)
    (h : p a = false) : (a :: l).find? p = l.find? p := by
  simp [List.find?_cons, h]

theorem tableGet_no_proto (m : DriftMap) (k : String) (h : k ∉ protoKeys) :
    tableGet m k = (List.lookup k m).map MapVal.arr3 := by
  unfold tableGet lookupTriple
  cases List.lookup k m with
  | some t => rfl
  | none => simp [h]

theorem truthyRead_map_arr3 (o : Option (String × String × String)) :
    truthyRead (o.map MapVal.arr3) = o.isSome := by
  cases o <;> rfl

theorem wordStage_table (m : DriftMap) : ∀ ws : List String,
    wordStage (.table m) ws = .ok (wordStageT m ws)
  | [] => rfl
  | w :: ws => by
    unfold wordStage wordStageT
    by_cases hl : w.length > 2
    · rw [if_pos hl, if_pos hl]
      rw [show mapRead (MapLike.table m) w = JSOutcome.ok (tableGet m w) from rfl]
      dsimp only
      by_cases ht : truthyRead (tableGet m w) = true
      · rw [if_pos ht, if_pos ht]
      · rw [if_neg ht, if_neg ht, wordStage_table m ws]
    · rw [if_neg hl, if_neg hl, wordStage_table m ws]

theorem findBestMatch_table (v : String) (m : DriftMap) :
    findBestMatch v (.table m) = .ok (findBestMatchT v m) := by
  unfold findBestMatch findBestMatchT
  dsimp only
  rw [show mapRead (MapLike.table m) (jsTrim (jsToLowerCase v)) =
    JSOutcome.ok (tableGet m (jsTrim (jsToLowerCase v))) from rfl]
  dsimp only [mapEntries]
  by_cases ht : truthyRead (tableGet m (jsTrim (jsToLowerCase v))) = true
  · rw [if_pos ht, if_pos ht]
  · rw [if_neg ht, if_neg ht]
    cases h2 : m.find? (fun kv =>
        jsIncludes (jsTrim (jsToLowerCase v)) kv.1 ||
        jsIncludes kv.1 (jsTrim (jsToLowerCase v))) with
    | some kv => rfl
    | none => rw [wordStage_table m]

theorem inferNegatives_table (category value : String)
    (h : categoryMaps category ≠ none ∨ category ∉ protoKeys) :
    inferNegatives category value = .ok (inferNegativesT category value) := by
  unfold inferNegatives inferNegativesT mapsGet
  by_cases he : value = "" ∨ jsTrim value = ""
  · rw [if_pos he, if_pos he]
  · rw [if_neg he, if_neg he]
    cases hm : categoryMaps category with
    | some m =>
      dsimp only
      rw [findBestMatch_table]
      cases findBestMatchT value m with
      | some v => rfl
      | none => rfl
    | none =>
      rcases h with h | h
      · exact absurd hm h
      · simp [h]

theorem wordStageT_spec (m : DriftMap) : ∀ ws : List String,
    (∀ w ∈ ws, w ∉ protoKeys) →
    wordStageT m ws =
      (match ws.find? (fun w =>
          decide (w.length > 2) && (List.lookup w m).isSome) with
       | some w => (List.lookup w m).map MapVal.arr3
       | none => none)
  | [], _ => rfl
  | w :: ws, h => by
    have hw : w ∉ protoKeys := h w (List.mem_cons_self w ws)
    have hws : ∀ x ∈ ws, x ∉ protoKeys :=
      fun x hx => h x (List.mem_cons_of_mem w hx)
    unfold wordStageT
    rw [tableGet_no_proto m w hw, truthyRead_map_arr3]
    by_cases hl : w.length > 2
    · rw [if_pos hl]
      cases hlk : List.lookup w m with
      | some t =>
        rw [find?_cons_true
          (fun w => decide (w.length > 2) && (List.lookup w m).isSome) w ws
          (by simp [hl, hlk])]
        show (some t).map MapVal.arr3 = (List.lookup w m).map MapVal.arr3
        rw [hlk]
      | none =>
        rw [find?_cons_false
          (fun w => decide (w.length > 2) && (List.lookup w m).isSome) w ws
          (by simp [hlk])]
        exact wordStageT_spec m ws hws
    · rw [if_neg hl]
      rw [find?_cons_false
        (fun w => decide (w.length > 2) && (List.lookup w m).isSome) w ws
        (by simp [hl])]
      exact wordStageT_spec m ws hws

theorem findBestMatchT_spec (v : String) (m : DriftMap)
    (hval : jsTrim (jsToLowerCase v) ∉ protoKeys)
    (hwords : ∀ w ∈ splitWsHyphen (jsTrim (jsToLowerCase v)), w ∉ protoKeys) :
    findBestMatchT v m =
      (match List.lookup (jsTrim (jsToLowerCase v)) m with
       | some t => some (.arr3 t)
       | none =>
         match m.find? (fun kv =>
             jsIncludes (jsTrim (jsToLowerCase v)) kv.1 ||
             jsIncludes kv.1 (jsTrim (jsToLowerCase v))) with
         | some kv => some (.arr3 kv.2)
         | none =>
           match (splitWsHyphen (jsTrim (jsToLowerCase v))).find?
               (fun w => decide (w.length > 2) && (List.lookup w m).isSome) with
           | some w => (List.lookup w m).map MapVal.arr3
           | none => none) := by
  unfold findBestMatchT
  dsimp only
  rw [tableGet_no_proto m _ hval, truthyRead_map_arr3]
  cases h1 : List.lookup (jsTrim (jsToLowerCase v)) m with
  | some t => rfl
  | none =>
    show (match m.find? (fun kv =>
          jsIncludes (jsTrim (jsToLowerCase v)) kv.1 ||
          jsIncludes kv.1 (jsTrim (jsToLowerCase v))) with
        | some kv => some (MapVal.arr3 kv.2)
        | none => wordStageT m (splitWsHyphen (jsTrim (jsToLowerCase v)))) = _
    cases h2 : m.find? (fun kv =>
        jsIncludes (jsTrim (jsToLowerCase v)) kv.1 ||
        jsIncludes kv.1 (jsTrim (jsToLowerCase v))) with
    | some kv => rfl
    | none => exact wordStageT_spec m _ hwords

/-- C2 (amended): `inferNegatives` implements the claim's staged lookup —
default triple on empty/whitespace-only values and unknown categories,
else exact match, then first textual-inclusion match in declaration
order, then first word longer than 2 characters with an exact match, else
the default triple — on every category and value that does not collide
with an `Object.prototype` property name; the prototype counterexample
shows the restriction cannot be dropped.  In particular
`inferNegatives "eyeColor" "violet"` is the triple
`["blue","purple","lavender"]`. -/
theorem inferNegatives_staged_amended :
    (∀ category value,
      category ∉ protoKeys →
      jsTrim (jsToLowerCase value) ∉ protoKeys →
      (∀ w ∈ splitWsHyphen (jsTrim (jsToLowerCase value)), w ∉ protoKeys) →
      inferNegatives category value =
        .ok (.arr3 (inferNegativesSpec category value))) ∧
    inferNegatives "eyeColor" "violet" =
      .ok (.arr3 ("blue", "purple", "lavender")) := by
  refine ⟨fun c v hcat hval hwords => ?_, by decide⟩
  unfold inferNegatives inferNegativesSpec mapsGet
  by_cases h : jsTrim v = ""
  · simp [h, DEFAULT_NEGATIVES]
  · have hv : ¬(v = "" ∨ jsTrim v = "") := by
      rintro (rfl | h2)
      · exact h rfl
      · exact h h2
    rw [if_neg hv, if_neg h]
    cases hm : categoryMaps c with
    | none => simp [hcat, DEFAULT_NEGATIVES]
    | some table =>
      dsimp only
      rw [findBestMatch_table, findBestMatchT_spec v table hval hwords]
      cases h1 : List.lookup (jsTrim (jsToLowerCase v)) table with
      | some t => rfl
      | none =>
        cases h2 : table.find? (fun kv =>
            jsIncludes (jsTrim (jsToLowerCase v)) kv.1 ||
            jsIncludes kv.1 (jsTrim (jsToLowerCase v))) with
        | some kv => rfl
        | none =>
          cases h3 : (splitWsHyphen (jsTrim (jsToLowerCase v))).find?
              (fun w => decide (w.length > 2) && (List.lookup w table).isSome) with
          | none => rfl
          | some w =>
            dsimp only
            cases List.lookup w table with
            | none => rfl
            | some t => rfl

/-- Witness for C2 (amended): the staged-lookup equation instantiated at
`("eyeColor", "violet")`, whose category, normalized value and words are
all prototype-free. -/
theorem inferNegatives_staged_amended_witness :
    ("eyeColor" ∉ protoKeys) ∧
    (jsTrim (jsToLowerCase "violet") ∉ protoKeys) ∧
    inferNegatives "eyeColor" "violet" =
      .ok (.arr3 (inferNegativesSpec "eyeColor" "violet")) :=
  ⟨by decide, by decide,
   inferNegatives_staged_amended.1 "eyeColor" "violet" (by decide) (by decide)
     (by decide)⟩

/-- The running fold of `hexToSimpleColorName`, started from a state that
already holds a best name and distance: the result is the first element
that strictly beats the held distance and is a global minimum of the
remaining list; otherwise the held name is kept. -/
theorem foldl_closest_from_some {α : Type} (d : α → ℤ) (nm : α → String) :
    ∀ (l : List α) (nm0 : String) (m0 : ℤ),
      (l.foldl (fun (acc : String × Option ℤ) c =>
        match acc.2 with
        | none => (nm c, some (d c))
        | some m => if d c < m then (nm c, some (d c)) else acc)
        (nm0, some m0)).1 =
      (match l.find? (fun c => decide (d c < m0) &&
          l.all (fun c2 => decide (d c ≤ d c2))) with
       | some c => nm c
       | none => nm0) := by
  intro l
  induction l with
  | nil => intro nm0 m0; rfl
  | cons a t ih =>
    intro nm0 m0
    simp only [List.foldl_cons]
    by_cases hlt : d a < m0
    · rw [if_pos hlt, ih (nm a) (d a)]
      by_cases hmin : t.all (fun c2 => decide (d a ≤ d c2)) = true
      · have hcond : (decide (d a < m0) &&
            (a :: t).all (fun c2 => decide (d a ≤ d c2))) = true := by
          simp [List.all_cons, hlt, hmin]
        rw [find?_cons_true (fun c => decide (d c < m0) &&
          (a :: t).all (fun c2 => decide (d c ≤ d c2))) a t hcond]
        have hnone : t.find? (fun c => decide (d c < d a) &&
            t.all (fun c2 => decide (d c ≤ d c2))) = none := by
          rw [List.find?_eq_none]
          intro c hc
          simp only [Bool.and_eq_true, decide_eq_true_eq, not_and]
          intro hca
          exact absurd hca (not_lt_of_le
            (by simpa using List.all_eq_true.mp hmin c hc))
        rw [hnone]
      · have hcond : (decide (d a < m0) &&
            (a :: t).all (fun c2 => decide (d a ≤ d c2))) = false := by
          cases hat : t.all (fun c2 => decide (d a ≤ d c2)) with
          | true => exact absurd hat hmin
          | false => simp [List.all_cons, hat]
        rw [find?_cons_false (fun c => decide (d c < m0) &&
          (a :: t).all (fun c2 => decide (d c ≤ d c2))) a t hcond]
        obtain ⟨w, hw, hwlt⟩ : ∃ w ∈ t, d w < d a := by
          by_contra hno
          push_neg at hno
          exact hmin (List.all_eq_true.mpr fun c2 hc2 => by
            simp [hno c2 hc2])
        have hpq : t.find? (fun c => decide (d c < d a) &&
              t.all (fun c2 => decide (d c ≤ d c2))) =
            t.find? (fun c => decide (d c < m0) &&
              (a :: t).all (fun c2 => decide (d c ≤ d c2))) := by
          apply find?_congr_on
          intro c hc
          show (decide (d c < d a) && t.all (fun c2 => decide (d c ≤ d c2))) =
            (decide (d c < m0) && (a :: t).all (fun c2 => decide (d c ≤ d c2)))
          rw [List.all_cons]
          by_cases hall : t.all (fun c2 => decide (d c ≤ d c2)) = true
          · have hcw : d c ≤ d w := by
              simpa using List.all_eq_true.mp hall w hw
            have hca : d c < d a := lt_of_le_of_lt hcw hwlt
            rw [hall]
            simp [hca, lt_trans hca hlt, le_of_lt hca]
          · rw [Bool.eq_false_iff.mpr hall]
            simp
        rw [hpq]
        cases hf : t.find? (fun c => decide (d c < m0) &&
            (a :: t).all (fun c2 => decide (d c ≤ d c2))) with
        | some c => rfl
        | none =>
          exfalso
          obtain ⟨c, hc, hcmin⟩ :=
            exists_first_min d t (List.ne_nil_of_mem hw)
          have hG := List.find?_eq_none.mp hf c hc
          apply hG
          have hcw : d c ≤ d w := hcmin w hw
          have hca : d c < d a := lt_of_le_of_lt hcw hwlt
          simp only [List.all_cons, Bool.and_eq_true, decide_eq_true_eq]
          exact ⟨lt_trans hca hlt, le_of_lt hca,
            List.all_eq_true.mpr fun c2 hc2 => by simpa using hcmin c2 hc2⟩
    · rw [if_neg hlt, ih nm0 m0]
      have hcond : (decide (d a < m0) &&
          (a :: t).all (fun c2 => decide (d a ≤ d c2))) = false := by
        simp [hlt]
      rw [find?_cons_false (fun c => decide (d c < m0) &&
        (a :: t).all (fun c2 => decide (d c ≤ d c2))) a t hcond]
      have hpq : t.find? (fun c => decide (d c < m0) &&
            t.all (fun c2 => decide (d c ≤ d c2))) =
          t.find? (fun c => decide (d c < m0) &&
            (a :: t).all (fun c2 => decide (d c ≤ d c2))) := by
        apply find?_congr_on
        intro c hc
        show (decide (d c < m0) && t.all (fun c2 => decide (d c ≤ d c2))) =
          (decide (d c < m0) && (a :: t).all (fun c2 => decide (d c ≤ d c2)))
        rw [List.all_cons]
        by_cases hm : d c < m0
        · have hca : d c ≤ d a := le_trans (le_of_lt hm) (not_lt.mp hlt)
          simp [hca]
        · simp [hm]
      rw [hpq]

/-- The full fold of `hexToSimpleColorName` from its initial state picks
the first-declared color attaining the minimum distance. -/
theorem foldl_closest_full {α : Type} (d : α → ℤ) (nm : α → String)
    (nm0 : String) (hd : α) (tl : List α) (hnm : nm hd = nm0) :
    ((hd :: tl).foldl (fun (acc : String × Option ℤ) c =>
      match acc.2 with
      | none => (nm c, some (d c))
      | some m => if d c < m then (nm c, some (d c)) else acc)
      (nm0, none)).1 =
    ((((hd :: tl).find? (fun c =>
      (hd :: tl).all (fun c2 => decide (d c ≤ d c2)))).map nm).getD nm0) := by
  simp only [List.foldl_cons]
  rw [foldl_closest_from_some d nm tl (nm hd) (d hd)]
  by_cases hmin : tl.all (fun c2 => decide (d hd ≤ d c2)) = true
  · have hcond : ((hd :: tl).all (fun c2 => decide (d hd ≤ d c2))) = true := by
      simp [List.all_cons, hmin]
    rw [find?_cons_true (fun c =>
      (hd :: tl).all (fun c2 => decide (d c ≤ d c2))) hd tl hcond]
    have hnone : tl.find? (fun c => decide (d c < d hd) &&
        tl.all (fun c2 => decide (d c ≤ d c2))) = none := by
      rw [List.find?_eq_none]
      intro c hc
      simp only [Bool.and_eq_true, decide_eq_true_eq, not_and]
      intro hca
      exact absurd hca (not_lt_of_le
        (by simpa using List.all_eq_true.mp hmin c hc))
    rw [hnone]
    simp [hnm]
  · have hcond : ((hd :: tl).all (fun c2 => decide (d hd ≤ d c2))) = false := by
      cases hat : tl.all (fun c2 => decide (d hd ≤ d c2)) with
      | true => exact absurd hat hmin
      | false => simp [List.all_cons, hat]
    rw [find?_cons_false (fun c =>
      (hd :: tl).all (fun c2 => decide (d c ≤ d c2))) hd tl hcond]
    obtain ⟨w, hw, hwlt⟩ : ∃ w ∈ tl, d w < d hd := by
      by_contra hno
      push_neg at hno
      exact hmin (List.all_eq_true.mpr fun c2 hc2 => by simp [hno c2 hc2])
    have hpq : tl.find? (fun c => decide (d c < d hd) &&
          tl.all (fun c2 => decide (d c ≤ d c2))) =
        tl.find? (fun c =>
          (hd :: tl).all (fun c2 => decide (d c ≤ d c2))) := by
      apply find?_congr_on
      intro c hc
      show (decide (d c < d hd) && tl.all (fun c2 => decide (d c ≤ d c2))) =
        ((hd :: tl).all (fun c2 => decide (d c ≤ d c2)))
      rw [List.all_cons]
      by_cases hall : tl.all (fun c2 => decide (d c ≤ d c2)) = true
      · have hcw : d c ≤ d w := by
          simpa using List.all_eq_true.mp hall w hw
        have hca : d c < d hd := lt_of_le_of_lt hcw hwlt
        rw [hall]
        simp [hca, le_of_lt hca]
      · rw [Bool.eq_false_iff.mpr hall]
        simp
    rw [hpq]
    cases hf : tl.find? (fun c =>
        (hd :: tl).all (fun c2 => decide (d c ≤ d c2))) with
    | some c => rfl
    | none =>
      exfalso
      obtain ⟨c, hc, hcmin⟩ :=
        exists_first_min d tl (List.ne_nil_of_mem hw)
      have hG := List.find?_eq_none.mp hf c hc
      apply hG
      have hcw : d c ≤ d w := hcmin w hw
      have hca : d c < d hd := lt_of_le_of_lt hcw hwlt
      simp only [List.all_cons, Bool.and_eq_true, decide_eq_true_eq]
      exact ⟨le_of_lt hca,
        List.all_eq_true.mpr fun c2 hc2 => by simpa using hcmin c2 hc2⟩

/-- C8 counterexample: `"0f0f0g"` is not a valid 3- or 6-digit hex color,
yet `hexToSimpleColorName` returns `"black"`, not `"unknown"` —
`parseInt("0g", 16)` parses the leading digit and yields `0`, so the
string is accepted as RGB `(15, 15, 0)`. -/
theorem hexToSimpleColorName_invalid_cex :
    isValidHexColor "0f0f0g" = false ∧
    hexToSimpleColorName "0f0f0g" = "black" := by
  decide

/-- C8 (amended): `hexToSimpleColorName` returns `"unknown"` exactly when
`hexToRgb` rejects the input (wrong length after `#` stripping and 3-digit
expansion, or a 2-character component with no leading hex digit — inputs
with trailing junk inside a component still parse); on every parsed input
it returns the first-declared reference color minimizing the Euclidean RGB
distance; and a 3-digit string and its digit-doubled 6-digit form always
produce the same name. -/
theorem hexToSimpleColorName_contract :
    (∀ s, hexToRgb s = none → hexToSimpleColorName s = "unknown") ∧
    (∀ s rgb, hexToRgb s = some rgb →
      some (hexToSimpleColorName s) = firstMinColor rgb) ∧
    (∀ c1 c2 c3 : Char,
      hexToSimpleColorName (String.mk [c1, c2, c3]) =
        hexToSimpleColorName (String.mk [c1, c1, c2, c2, c3, c3])) := by
  refine ⟨fun s h => ?_, fun s rgb h => ?_, fun c1 c2 c3 => ?_⟩
  · unfold hexToSimpleColorName
    rw [h]
  · unfold hexToSimpleColorName firstMinColor
    rw [h]
    dsimp only
    have hB : BASE_COLORS = ("red", 255, 0, 0) :: BASE_COLORS.tail := rfl
    rw [hB]
    rw [foldl_closest_full (fun c => distSq rgb c.2) (fun c => c.1) "red"
      ("red", 255, 0, 0) BASE_COLORS.tail rfl]
    cases hf : ((("red", (255 : ℤ), (0 : ℤ), (0 : ℤ)) :: BASE_COLORS.tail).find?
        (fun c => ((("red", (255 : ℤ), (0 : ℤ), (0 : ℤ)) :: BASE_COLORS.tail).all
          (fun c2 => decide (distSq rgb c.2 ≤ distSq rgb c2.2))))) with
    | some c => simp [hf]
    | none =>
      exfalso
      obtain ⟨c, hc, hcmin⟩ := exists_first_min (fun c => distSq rgb c.2)
        (("red", (255 : ℤ), (0 : ℤ), (0 : ℤ)) :: BASE_COLORS.tail)
        (List.cons_ne_nil _ _)
      apply List.find?_eq_none.mp hf c hc
      simp only [List.all_eq_true, decide_eq_true_eq]
      exact fun c2 hc2 => hcmin c2 hc2
  · have h36 : hexToRgb (String.mk [c1, c2, c3]) =
        hexToRgb (String.mk [c1, c1, c2, c2, c3, c3]) := by
      unfold hexToRgb
      by_cases h : c1 = '#'
      · subst h
        simp
      · simp [h, List.flatMap_cons]
    unfold hexToSimpleColorName
    rw [h36]

/-- Witness for C8: `#FF0000` parses to `(255, 0, 0)` and the contract
instantiates there (the nearest first-declared color being `"red"`). -/
theorem hexToSimpleColorName_contract_witness :
    hexToRgb "#FF0000" = some (255, 0, 0) ∧
    some (hexToSimpleColorName "#FF0000") = firstMinColor (255, 0, 0) :=
  ⟨by decide, hexToSimpleColorName_contract.2.1 "#FF0000" (255, 0, 0) (by decide)⟩

/-- C9: when the hair part is the literal `"none"` or is empty, the
combined hair phrase carries no "parted" clause — it is exactly the
space-joined hair parts plus `" hair"`.  Both builders construct their
hair phrase through `hairPhrase`: `identityLockParts` passes the raw
`hairSpecifics`, and `buildLockedIdentityPromptPair` passes the hydrated
ones, whose `is`-projections are unchanged (second conjunct). -/
theorem hairPhrase_part_none_no_parted :
    ∀ (i : SubjectIdentity) (h : HairSpecifics),
      i.hairSpecifics = some h →
      h.hairPart = "none" ∨ h.hairPart = "" →
      hairPhrase (some h) i.accentColor.description =
        (if (hairPhraseParts (some h) i.accentColor.description).isEmpty then none
         else some (joinSep " "
           (hairPhraseParts (some h) i.accentColor.description) ++ " hair")) ∧
      (hydrateIdentity i).hairSpecifics.map unlockHair = i.hairSpecifics := by
  intro i h hi hp
  constructor
  · unfold hairPhrase
    rcases hp with hp | hp <;> simp [hp]
  · rw [hi]
    simp [hydrateIdentity, hi, lockHairSpecifics, unlockHair, lock]

/-- Witness for C9: a concrete hair record with part `"none"` yields the
part-free phrase. -/
theorem hairPhrase_part_none_no_parted_witness :
    ({ blankIdentity with
        accentColor := { description := "auburn", hex := "" }
        hairSpecifics := some
          { hairLength := "short", hairWave := "", hairPart := "none" }
      } : SubjectIdentity).hairSpecifics = some
        { hairLength := "short", hairWave := "", hairPart := "none" } ∧
    (("none" : String) = "none" ∨ ("none" : String) = "") ∧
    hairPhrase (some { hairLength := "short", hairWave := "", hairPart := "none" })
        "auburn" =
      (if (hairPhraseParts
          (some { hairLength := "short", hairWave := "", hairPart := "none" })
          "auburn").isEmpty then none
       else some (joinSep " " (hairPhraseParts
          (some { hairLength := "short", hairWave := "", hairPart := "none" })
          "auburn") ++ " hair")) :=
  ⟨rfl, Or.inl rfl,
   (hairPhrase_part_none_no_parted
      { blankIdentity with
          accentColor := { description := "auburn", hex := "" }
          hairSpecifics := some
            { hairLength := "short", hairWave := "", hairPart := "none" } }
      { hairLength := "short", hairWave := "", hairPart := "none" }
      rfl (Or.inl rfl)).1⟩

theorem append_ne_empty_right (a b : String) (hb : b ≠ "") : a ++ b ≠ "" := by
  intro h
  apply hb
  have hd := congrArg String.data h
  simp only [String.data_append] at hd
  rcases List.append_eq_nil.mp hd with ⟨_, h2⟩
  cases b
  simp only at h2
  simp [h2]

theorem append_ne_empty_left (a b : String) (ha : a ≠ "") : a ++ b ≠ "" := by
  intro h
  apply ha
  have hd := congrArg String.data h
  simp only [String.data_append] at hd
  rcases List.append_eq_nil.mp hd with ⟨h1, _⟩
  cases a
  simp only at h1
  simp [h1]

theorem joinSep_cons_of_ne_nil (s x : String) {t : List String} (ht : t ≠ []) :
    joinSep s (x :: t) = x ++ s ++ joinSep s t := by
  cases t with
  | nil => exact absurd rfl ht
  | cons y t' => rfl

theorem joinSep_group (s : String) :
    ∀ (g : List String), g ≠ [] → ∀ (ys : List String),
      joinSep s (joinSep s g :: ys) = joinSep s (g ++ ys) := by
  intro g
  induction g with
  | nil => intro h; exact absurd rfl h
  | cons a g' ih =>
    intro _ ys
    by_cases hg : g' = []
    · subst hg
      rfl
    · rw [joinSep_cons_of_ne_nil s a hg]
      cases ys with
      | nil =>
        rw [List.append_nil, joinSep_cons_of_ne_nil s a hg]
        rfl
      | cons y ys' =>
        have h1 : joinSep s ((a ++ s ++ joinSep s g') :: y :: ys') =
            (a ++ s ++ joinSep s g') ++ s ++ joinSep s (y :: ys') := rfl
        rw [h1]
        have h2 : joinSep s (a :: (g' ++ y :: ys')) =
            a ++ s ++ joinSep s (g' ++ y :: ys') := by
          apply joinSep_cons_of_ne_nil
          simp [hg]
        rw [List.cons_append, h2, ← ih hg (y :: ys')]
        rw [joinSep_cons_of_ne_nil s (joinSep s g') (List.cons_ne_nil y ys')]
        simp [String.append_assoc]

theorem joinSep_flatten (s : String) (g : List String) (hg : g ≠ []) :
    ∀ (xs ys : List String),
      joinSep s (xs ++ joinSep s g :: ys) = joinSep s (xs ++ (g ++ ys)) := by
  intro xs
  induction xs with
  | nil =>
    intro ys
    simp only [List.nil_append]
    exact joinSep_group s g hg ys
  | cons x xs' ih =>
    intro ys
    have hne1 : xs' ++ joinSep s g :: ys ≠ [] := by simp
    have hne2 : xs' ++ (g ++ ys) ≠ [] := by simp [hg]
    rw [List.cons_append, List.cons_append,
      joinSep_cons_of_ne_nil s x hne1, joinSep_cons_of_ne_nil s x hne2, ih ys]

theorem mem_if_singleton {c : Prop} [Decidable c] {v x : String}
    (hx : x ∈ (if c then [v] else [])) : c ∧ x = v := by
  split at hx
  · exact ⟨by assumption, List.mem_singleton.mp hx⟩
  · cases hx

theorem geoPhrases_ne_empty (geo : FaceGeometry) :
    ∀ x ∈ geoPhrases geo, x ≠ "" := by
  intro x hx
  unfold geoPhrases at hx
  simp only [List.mem_append] at hx
  rcases hx with (((h | h) | h) | h) | h <;>
    · obtain ⟨_, rfl⟩ := mem_if_singleton h
      exact append_ne_empty_right _ _ (by decide)

theorem hairPhrase_some_ne_empty {specs : Option HairSpecifics}
    {desc d : String} (h : hairPhrase specs desc = some d) : d ≠ "" := by
  unfold hairPhrase at h
  cases he : (hairPhraseParts specs desc).isEmpty with
  | true => simp [he] at h
  | false =>
    simp only [he, Bool.false_eq_true, if_false] at h
    rw [Option.some_inj] at h
    subst h
    cases specs with
    | none =>
      simp only [String.append_empty]
      exact append_ne_empty_right _ _ (by decide)
    | some hsp =>
      exact append_ne_empty_left _ _ (append_ne_empty_right _ _ (by decide))

theorem joinSep_take3_ne_empty {l : List String} (h1 : l ≠ []) (h2 : l ≠ [""]) :
    joinSep ", " (l.take 3) ≠ "" := by
  cases l with
  | nil => exact absurd rfl h1
  | cons a t =>
    cases t with
    | nil =>
      have ha : a ≠ "" := fun h => h2 (by rw [h])
      simpa [joinSep] using ha
    | cons b t' =>
      have hshape : (a :: b :: t').take 3 = a :: b :: t'.take 1 := rfl
      rw [hshape, joinSep_cons_of_ne_nil ", " a (List.cons_ne_nil _ _)]
      exact append_ne_empty_left _ _ (append_ne_empty_right _ _ (by decide))

theorem build_ok_positive (locked : LockedSubjectIdentity) (p : PromptPair)
    (h : buildLockedIdentityPromptPair locked = .ok p) :
    p.positive = (pairPositive locked).filter (fun s => s ≠ "") := by
  unfold buildLockedIdentityPromptPair at h
  cases hn : pairNegativesRaw locked with
  | thrown =>
    rw [hn] at h
    exact JSOutcome.noConfusion
      (show (JSOutcome.thrown : JSOutcome PromptPair) = .ok p from h)
  | ok negs =>
    rw [hn] at h
    have h3 : JSOutcome.ok
        ({ positive := (pairPositive locked).filter (fun s => s ≠ "")
           negative := jsSetDedup (negs.filter (fun s => s ≠ "")) } : PromptPair) =
        JSOutcome.ok p := h
    injection h3 with h4
    rw [← h4]

theorem pair_positive_filtered (i : SubjectIdentity)
    (hs : i.bodyStructure = "") (ht : i.texture = "") :
    (pairPositive (hydrateIdentity i)).filter (fun s => s ≠ "") =
      ((if i.species ≠ "" then [i.species] else []) ++
       ((if i.estimatedAge ≠ "" then [i.estimatedAge] else []) ++
        ((match i.faceGeometry with
          | some geo => geoPhrases geo
          | none => []) ++
         ((if i.primaryColor.description ≠ "" then
            [i.primaryColor.description ++ " eyes"] else []) ++
          ((if i.secondaryColor.description ≠ "" then
             [i.secondaryColor.description ++ " skin"] else []) ++
           ((match hairPhrase i.hairSpecifics i.accentColor.description with
             | some hairDesc => [hairDesc]
             | none => []) ++
            ((if i.distinguishingFeatures ≠ [] then
               [joinSep ", " (i.distinguishingFeatures.take 3)] else []) ++
             (if i.fixedSeed ≠ "" then
               ["\"" ++ i.fixedSeed ++ "\""] else [])))))))).filter
        (fun s => s ≠ "") := by
  unfold pairPositive
  cases hfg : i.faceGeometry with
  | none =>
    cases hhs : i.hairSpecifics with
    | none =>
      simp [hydrateIdentity, lock, lockIdentityColor, hs, ht, hfg, hhs,
        List.append_assoc]
    | some hsp =>
      simp [hydrateIdentity, lock, lockIdentityColor, lockHairSpecifics,
        unlockHair, hs, ht, hfg, hhs, List.append_assoc]
  | some geo =>
    cases hhs : i.hairSpecifics with
    | none =>
      simp [hydrateIdentity, lock, lockIdentityColor, lockFaceGeometry,
        unlockGeo, hs, ht, hfg, hhs, List.append_assoc]
    | some hsp =>
      simp [hydrateIdentity, lock, lockIdentityColor, lockFaceGeometry,
        lockHairSpecifics, unlockGeo, unlockHair, hs, ht, hfg, hhs,
        List.append_assoc]

theorem identityLockParts_grouped (i : SubjectIdentity)
    (hs : i.bodyStructure = "") (ht : i.texture = "") :
    identityLockParts i =
      (if i.species ≠ "" then [i.species] else []) ++
      ((if i.estimatedAge ≠ "" then [i.estimatedAge] else []) ++
       ((match i.faceGeometry with
         | some geo =>
           if (geoPhrases geo).isEmpty then []
           else [joinSep ", " (geoPhrases geo)]
         | none => []) ++
        ((if i.primaryColor.description ≠ "" then
           [i.primaryColor.description ++ " eyes"] else []) ++
         ((if i.secondaryColor.description ≠ "" then
            [i.secondaryColor.description ++ " skin"] else []) ++
          ((match hairPhrase i.hairSpecifics i.accentColor.description with
            | some hairDesc => [hairDesc]
            | none => []) ++
           ((if i.distinguishingFeatures ≠ [] then
              [joinSep ", " (i.distinguishingFeatures.take 3)] else []) ++
            (if i.fixedSeed ≠ "" then
              ["\"" ++ i.fixedSeed ++ "\""] else []))))))) := by
  unfold identityLockParts
  cases hfg : i.faceGeometry with
  | none =>
    cases hhp : hairPhrase i.hairSpecifics i.accentColor.description with
    | none => simp [hs, ht, hfg, hhp, List.append_assoc]
    | some d => simp [hs, ht, hfg, hhp, List.append_assoc]
  | some geo =>
    cases hhp : hairPhrase i.hairSpecifics i.accentColor.description with
    | none => simp [hs, ht, hfg, hhp, List.append_assoc]
    | some d => simp [hs, ht, hfg, hhp, List.append_assoc]

theorem pair_positive_flat (i : SubjectIdentity)
    (hs : i.bodyStructure = "") (ht : i.texture = "")
    (hf : i.distinguishingFeatures ≠ [""]) :
    (pairPositive (hydrateIdentity i)).filter (fun s => s ≠ "") =
      (if i.species ≠ "" then [i.species] else []) ++
      ((if i.estimatedAge ≠ "" then [i.estimatedAge] else []) ++
       ((match i.faceGeometry with
         | some geo => geoPhrases geo
         | none => []) ++
        ((if i.primaryColor.description ≠ "" then
           [i.primaryColor.description ++ " eyes"] else []) ++
         ((if i.secondaryColor.description ≠ "" then
            [i.secondaryColor.description ++ " skin"] else []) ++
          ((match hairPhrase i.hairSpecifics i.accentColor.description with
            | some hairDesc => [hairDesc]
            | none => []) ++
           ((if i.distinguishingFeatures ≠ [] then
              [joinSep ", " (i.distinguishingFeatures.take 3)] else []) ++
            (if i.fixedSeed ≠ "" then
              ["\"" ++ i.fixedSeed ++ "\""] else []))))))) := by
  rw [pair_positive_filtered i hs ht]
  apply List.filter_eq_self.mpr
  intro x hx
  simp only [List.mem_append] at hx
  simp only [decide_eq_true_eq]
  rcases hx with h | h | h | h | h | h | h | h
  · obtain ⟨hc, rfl⟩ := mem_if_singleton h
    exact hc
  · obtain ⟨hc, rfl⟩ := mem_if_singleton h
    exact hc
  · cases hfg : i.faceGeometry with
    | none => rw [hfg] at h; cases h
    | some geo =>
      rw [hfg] at h
      exact geoPhrases_ne_empty geo x h
  · obtain ⟨_, rfl⟩ := mem_if_singleton h
    exact append_ne_empty_right _ _ (by decide)
  · obtain ⟨_, rfl⟩ := mem_if_singleton h
    exact append_ne_empty_right _ _ (by decide)
  · cases hhp : hairPhrase i.hairSpecifics i.accentColor.description with
    | none => rw [hhp] at h; cases h
    | some d =>
      rw [hhp] at h
      rw [List.mem_singleton.mp h]
      exact hairPhrase_some_ne_empty hhp
  · obtain ⟨hc, rfl⟩ := mem_if_singleton h
    exact joinSep_take3_ne_empty hc hf
  · obtain ⟨_, rfl⟩ := mem_if_singleton h
    exact append_ne_empty_right _ _ (by decide)

/-- C4 (amended): whenever `buildLockedIdentityPromptPair` returns
normally (non-prototype attribute values; on prototype-key descriptions
it throws while `buildIdentityLock` still returns), the bracket contents
of `buildIdentityLock` and its positive sequence agree as comma-joined
text if additionally the identity's `structure` and `texture` are empty
and the feature list is not the degenerate `[""]` (the lock groups the
face-geometry phrases into one comma-joined part, so the comparison is on
the joined text).  With a non-empty `structure` the two differ: the lock
renders it verbatim and only when face geometry is absent, the pair
builder always renders `"<value> build"`; with a non-empty `texture` the
lock uses it only when the hair-part list is empty, the pair builder
whenever `hairSpecifics` is absent. -/
theorem identityLock_matches_pair_amended :
    ∀ (i : SubjectIdentity) (p : PromptPair),
      buildLockedIdentityPromptPair (hydrateIdentity i) = .ok p →
      i.bodyStructure = "" → i.texture = "" →
      i.distinguishingFeatures ≠ [""] →
      joinSep ", " (identityLockParts i) = joinSep ", " p.positive := by
  intro i p hok hs ht hf
  rw [build_ok_positive (hydrateIdentity i) p hok]
  rw [identityLockParts_grouped i hs ht, pair_positive_flat i hs ht hf]
  cases hfg : i.faceGeometry with
  | none => rfl
  | some geo =>
    simp only
    by_cases hge : (geoPhrases geo).isEmpty = true
    · have hnil : geoPhrases geo = [] := by simpa using hge
      simp [hnil]
    · have hgne : geoPhrases geo ≠ [] := by simpa using hge
      rw [if_neg hge]
      simp only [List.singleton_append]
      have hfl := joinSep_flatten ", " (geoPhrases geo) hgne
        ((if i.species ≠ "" then [i.species] else []) ++
          (if i.estimatedAge ≠ "" then [i.estimatedAge] else []))
        ((if i.primaryColor.description ≠ "" then
           [i.primaryColor.description ++ " eyes"] else []) ++
         ((if i.secondaryColor.description ≠ "" then
            [i.secondaryColor.description ++ " skin"] else []) ++
          ((match hairPhrase i.hairSpecifics i.accentColor.description with
            | some hairDesc => [hairDesc]
            | none => []) ++
           ((if i.distinguishingFeatures ≠ [] then
              [joinSep ", " (i.distinguishingFeatures.take 3)] else []) ++
            (if i.fixedSeed ≠ "" then
              ["\"" ++ i.fixedSeed ++ "\""] else [])))))
      simp only [← List.append_assoc] at hfl ⊢
      exact hfl

/-- Witness for C4 (amended): a concrete identity with empty structure
and texture on which the pair builder returns normally and both builders
agree. -/
theorem identityLock_matches_pair_amended_witness :
    (buildLockedIdentityPromptPair (hydrateIdentity threeColorIdentity) =
      .ok (okD (⟨[], []⟩ : PromptPair)
        (buildLockedIdentityPromptPair (hydrateIdentity threeColorIdentity))) ∧
     threeColorIdentity.bodyStructure = "" ∧ threeColorIdentity.texture = "" ∧
     threeColorIdentity.distinguishingFeatures ≠ [""]) ∧
    joinSep ", " (identityLockParts threeColorIdentity) =
      joinSep ", " (okD (⟨[], []⟩ : PromptPair)
        (buildLockedIdentityPromptPair (hydrateIdentity threeColorIdentity))).positive :=
  ⟨⟨by decide, rfl, rfl, by decide⟩,
   identityLock_matches_pair_amended threeColorIdentity _ (by decide) rfl rfl
     (by decide)⟩

theorem jsSetDedupGo_spec : ∀ (l seen : List String),
    (jsSetDedupGo seen l).Nodup ∧ ∀ x ∈ jsSetDedupGo seen l, x ∉ seen := by
  intro l
  induction l with
  | nil => intro seen; exact ⟨List.nodup_nil, by simp [jsSetDedupGo]⟩
  | cons x xs ih =>
    intro seen
    by_cases hx : x ∈ seen
    · simpa [jsSetDedupGo, hx] using ih seen
    · simp only [jsSetDedupGo, if_neg hx]
      obtain ⟨ihn, ihs⟩ := ih (seen ++ [x])
      refine ⟨List.nodup_cons.mpr ⟨?_, ihn⟩, ?_⟩
      · intro hmem
        exact (ihs x hmem) (by simp)
      · intro y hy
        rcases List.mem_cons.mp hy with rfl | hy
        · exact hx
        · intro hys
          exact (ihs y hy) (by simp [hys])

theorem jsSetDedup_nodup (l : List String) : (jsSetDedup l).Nodup :=
  (jsSetDedupGo_spec l []).1

theorem jsSetDedupGo_length_le : ∀ (l seen : List String),
    (jsSetDedupGo seen l).length ≤ l.length := by
  intro l
  induction l with
  | nil => intro seen; simp [jsSetDedupGo]
  | cons x xs ih =>
    intro seen
    by_cases hx : x ∈ seen
    · simp only [jsSetDedupGo, if_pos hx, List.length_cons]
      exact le_trans (ih seen) (Nat.le_succ _)
    · simp only [jsSetDedupGo, if_neg hx, List.length_cons]
      exact Nat.succ_le_succ (ih (seen ++ [x]))

theorem jsSetDedupGo_append : ∀ (a seen b : List String),
    ∃ t, jsSetDedupGo seen (a ++ b) = jsSetDedupGo seen a ++ t := by
  intro a
  induction a with
  | nil => intro seen b; exact ⟨jsSetDedupGo seen b, by simp [jsSetDedupGo]⟩
  | cons x a' ih =>
    intro seen b
    by_cases hx : x ∈ seen
    · simp only [List.cons_append, jsSetDedupGo, if_pos hx]
      exact ih seen b
    · simp only [List.cons_append, jsSetDedupGo, if_neg hx]
      obtain ⟨t, htt⟩ := ih (seen ++ [x]) b
      refine ⟨t, ?_⟩
      show x :: jsSetDedupGo (seen ++ [x]) (a' ++ b) =
        x :: jsSetDedupGo (seen ++ [x]) a' ++ t
      rw [htt]
      rfl

/-- C7 (amended): whenever `getIdentityNegatives` returns normally (it
throws at prototype-key attribute descriptions, where the drift lookup
yields a non-array), the returned identity negative list has at most 12
entries, is deduplicated, and starts with the deduplicated user-authored
negatives (at most 5) before any drift-inferred ones — but the drift
entries are drawn from the first 10 hydrated drift negatives, so without
user negatives up to 10 (not 7) drift entries can appear.  With the
negative section enabled and that same normal return, the universal
prompt is the negative-off prompt followed by `\n\n--neg ` and the
metadata's own `negative` string, then the comma-joined identity
negatives. -/
theorem universal_negative_block_amended :
    (∀ (identity : SubjectIdentity) (negs : List String),
      getIdentityNegatives (some identity) = .ok negs →
      negs.length ≤ 12 ∧ negs.Nodup ∧
      ∃ t, negs = jsSetDedup ((identity.identityNegatives.getD []).take 5) ++ t) ∧
    (∀ (md : ImageMetadata) (secs : UniversalIncludeSections) (idl : List String),
      secs.negative = true →
      getIdentityNegatives md.subject.identity = .ok idl →
      generateUniversalPrompt md (some ⟨none, some { secs with negative := false }⟩) =
        .ok (joinSep ", " ((universalPromptParts md secs).filter (fun s => s ≠ ""))) ∧
      generateUniversalPrompt md (some ⟨none, some secs⟩) =
        .ok (joinSep ", " ((universalPromptParts md secs).filter (fun s => s ≠ "")) ++
          (if ((if md.negative ≠ "" then [md.negative] else []) ++
              (if idl ≠ [] then [joinSep ", " idl] else [])) ≠ [] then
            "\n\n--neg " ++ joinSep ", "
              ((if md.negative ≠ "" then [md.negative] else []) ++
               (if idl ≠ [] then [joinSep ", " idl] else []))
           else ""))) := by
  constructor
  · intro identity negs hok
    have hok2 : (match getDriftNegatives identity 10 with
        | .thrown => (.thrown : JSOutcome (List String))
        | .ok driftNegs =>
          .ok ((jsSetDedup (((identity.identityNegatives.getD []).take 5) ++
            driftNegs)).take 12)) = .ok negs := hok
    cases hd : getDriftNegatives identity 10 with
    | thrown =>
      rw [hd] at hok2
      exact JSOutcome.noConfusion
        (show (JSOutcome.thrown : JSOutcome (List String)) = .ok negs from hok2)
    | ok drift =>
      rw [hd] at hok2
      have h3 : JSOutcome.ok
          ((jsSetDedup (((identity.identityNegatives.getD []).take 5) ++
            drift)).take 12) = JSOutcome.ok negs := hok2
      injection h3 with h4
      subst h4
      refine ⟨?_, ?_, ?_⟩
      · exact le_trans (List.length_take_le _ _) (le_refl 12)
      · exact List.Nodup.sublist (List.take_sublist _ _) (jsSetDedup_nodup _)
      · obtain ⟨t, ht⟩ := jsSetDedupGo_append
          ((identity.identityNegatives.getD []).take 5) [] drift
        simp only [jsSetDedup, ht]
        have hlen : (jsSetDedupGo []
            ((identity.identityNegatives.getD []).take 5)).length ≤ 12 := by
          refine le_trans (jsSetDedupGo_length_le _ _) ?_
          exact le_trans (List.length_take_le _ _) (by norm_num)
        rw [List.take_append_eq_append_take,
          List.take_of_length_le hlen]
        exact ⟨_, rfl⟩
  · intro md secs idl hneg hok
    have hR : generateUniversalPrompt md
        (some ⟨none, some { secs with negative := false }⟩) =
        .ok (joinSep ", " ((universalPromptParts md secs).filter
          (fun s => s ≠ ""))) := rfl
    refine ⟨hR, ?_⟩
    have hL : generateUniversalPrompt md (some ⟨none, some secs⟩) =
        (if secs.negative = true then
          match getIdentityNegatives md.subject.identity with
          | .thrown => .thrown
          | .ok identityNegs =>
            .ok (if ((if md.negative ≠ "" then [md.negative] else []) ++
                  (if identityNegs ≠ [] then [joinSep ", " identityNegs]
                   else [])) ≠ [] then
              joinSep ", " ((universalPromptParts md secs).filter
                (fun s => s ≠ "")) ++ "\n\n--neg " ++
                joinSep ", " ((if md.negative ≠ "" then [md.negative] else []) ++
                  (if identityNegs ≠ [] then [joinSep ", " identityNegs]
                   else []))
             else joinSep ", " ((universalPromptParts md secs).filter
              (fun s => s ≠ "")))
         else .ok (joinSep ", " ((universalPromptParts md secs).filter
          (fun s => s ≠ "")))) := rfl
    rw [hL, if_pos hneg, hok]
    dsimp only
    by_cases hnp : ((if md.negative ≠ "" then [md.negative] else []) ++
        (if idl ≠ [] then [joinSep ", " idl] else [])) = []
    · have hnn : ¬(((if md.negative ≠ "" then [md.negative] else []) ++
          (if idl ≠ [] then [joinSep ", " idl] else [])) ≠ []) :=
        not_not_intro hnp
      rw [if_neg hnn, if_neg hnn, String.append_empty]
    · rw [if_pos hnp, if_pos hnp, String.append_assoc]

theorem goodColor_normalizeIdentityColor (v : JSValue) :
    GoodColor (normalizeIdentityColor v) := by
  unfold normalizeIdentityColor
  cases jsObjectProps v with
  | none => exact ⟨⟨by decide, by decide⟩, ⟨by decide, by decide⟩⟩
  | some fs =>
    exact ⟨normalizeString_not_sentinel _, normalizeString_not_sentinel _⟩

theorem goodGeo_normalizeFaceGeometry (v : JSValue) :
    GoodGeo (normalizeFaceGeometry v) := by
  unfold normalizeFaceGeometry
  cases jsObjectProps v with
  | none => trivial
  | some fs =>
    dsimp only
    split
    · refine ⟨⟨?_, ?_, ?_, ?_, ?_⟩, by assumption⟩ <;>
        exact normalizeString_not_sentinel _
    · trivial

theorem goodHair_normalizeHairSpecifics (v : JSValue) :
    GoodHair (normalizeHairSpecifics v) := by
  unfold normalizeHairSpecifics
  cases jsObjectProps v with
  | none => trivial
  | some fs =>
    dsimp only
    split
    · refine ⟨⟨?_, ?_, ?_⟩, by assumption⟩ <;>
        exact normalizeString_not_sentinel _
    · trivial

theorem clampJS_mem_unit (v : JSValue) : 0 ≤ clampJS v ∧ clampJS v ≤ 1 := by
  have hb : ∀ q : ℚ, 0 ≤ max 0 (min 1 q) ∧ max 0 (min 1 q) ≤ 1 := fun q =>
    ⟨le_max_left _ _, max_le (by norm_num) (min_le_left _ _)⟩
  have hb2 : ∀ (w : JSValue),
      0 ≤ (match parseFloatQ (jsToString w) with
           | none => (0 : ℚ)
           | some q => max 0 (min 1 q)) ∧
      (match parseFloatQ (jsToString w) with
       | none => (0 : ℚ)
       | some q => max 0 (min 1 q)) ≤ 1 := by
    intro w
    cases parseFloatQ (jsToString w) with
    | none => exact ⟨le_refl 0, by norm_num⟩
    | some q => exact hb q
  cases v with
  | num q => exact hb q
  | null => exact hb2 .null
  | undef => exact hb2 .undef
  | bool b => exact hb2 (.bool b)
  | str s => exact hb2 (.str s)
  | arr xs => exact hb2 (.arr xs)
  | obj fs => exact hb2 (.obj fs)

theorem goodConf_normalizeConfidence (v : JSValue) :
    GoodConf (normalizeConfidence v) := by
  unfold normalizeConfidence
  cases jsObjectProps v with
  | none => trivial
  | some fs =>
    dsimp only
    split
    · exact ⟨clampJS_mem_unit _, clampJS_mem_unit _, clampJS_mem_unit _,
        clampJS_mem_unit _, clampJS_mem_unit _, clampJS_mem_unit _,
        by assumption⟩
    · trivial

theorem goodIdentity_normalizeIdentity (v : JSValue) :
    GoodIdentity (normalizeIdentity v) := by
  unfold normalizeIdentity
  cases jsObjectProps v with
  | none => trivial
  | some fs =>
    dsimp only
    split
    · trivial
    · rename_i hcond
      refine ⟨?_, goodColor_normalizeIdentityColor _,
        goodColor_normalizeIdentityColor _, goodColor_normalizeIdentityColor _,
        normalizeString_not_sentinel _, normalizeString_not_sentinel _,
        normalizeString_not_sentinel _, normalizeString_not_sentinel _,
        normalizeString_not_sentinel _, goodGeo_normalizeFaceGeometry _,
        goodHair_normalizeHairSpecifics _, ?_, goodConf_normalizeConfidence _⟩
      · exact not_and_or.mp hcond
      · dsimp only
        split
        · trivial
        · rename_i l hl
          by_cases hE :
              (normalizeArray (getProp fs "identityNegatives")).isEmpty = true
          · rw [if_pos hE] at hl
            exact Option.noConfusion hl
          · rw [if_neg hE] at hl
            rw [Option.some_inj] at hl
            subst hl
            intro hnil
            exact hE (by simp [hnil])

theorem normalizedRecord_good (w : JSValue) : GoodMd (normalizedRecord w) :=
  ⟨normalizeString_not_sentinel _, normalizeString_not_sentinel _,
   normalizeString_not_sentinel _, normalizeString_not_sentinel _,
   normalizeString_not_sentinel _, normalizeString_not_sentinel _,
   normalizeString_not_sentinel _, normalizeString_not_sentinel _,
   normalizeString_not_sentinel _, normalizeString_not_sentinel _,
   normalizeString_not_sentinel _, normalizeString_not_sentinel _,
   normalizeString_not_sentinel _, normalizeString_not_sentinel _,
   normalizeString_not_sentinel _, normalizeString_not_sentinel _,
   normalizeString_not_sentinel _, normalizeString_not_sentinel _,
   goodIdentity_normalizeIdentity _⟩

theorem normalizeMetadata_eq_normalizedRecord (v : JSValue)
    (hnull : v ≠ .null) (hundef : v ≠ .undef) :
    normalizeMetadata v = some (normalizedRecord v) := by
  cases v with
  | null => exact absurd rfl hnull
  | undef => exact absurd rfl hundef
  | bool b => rfl
  | num q => rfl
  | str s => rfl
  | arr xs => rfl
  | obj fs => rfl

theorem normalizeMetadata_good (v : JSValue) (md : ImageMetadata)
    (h : normalizeMetadata v = some md) : GoodMd md := by
  cases v with
  | null => exact Option.noConfusion h
  | undef => exact Option.noConfusion h
  | bool b =>
    have h2 : some (normalizedRecord (.bool b)) = some md := h
    rw [Option.some_inj] at h2
    subst h2
    exact normalizedRecord_good _
  | num q =>
    have h2 : some (normalizedRecord (.num q)) = some md := h
    rw [Option.some_inj] at h2
    subst h2
    exact normalizedRecord_good _
  | str s =>
    have h2 : some (normalizedRecord (.str s)) = some md := h
    rw [Option.some_inj] at h2
    subst h2
    exact normalizedRecord_good _
  | arr xs =>
    have h2 : some (normalizedRecord (.arr xs)) = some md := h
    rw [Option.some_inj] at h2
    subst h2
    exact normalizedRecord_good _
  | obj fs =>
    have h2 : some (normalizedRecord (.obj fs)) = some md := h
    rw [Option.some_inj] at h2
    subst h2
    exact normalizedRecord_good _

theorem getProp_embedOptEntry_ne (k key : String) (v : Option JSValue)
    (rest : List (String × JSValue)) (h : k ≠ key) :
    getProp (embedOptEntry k v ++ rest) key = getProp rest key := by
  cases v with
  | none => rfl
  | some x => simp [embedOptEntry, getProp, h]

theorem getProp_embedOptEntry_last (k key : String) (v : Option JSValue)
    (h : k ≠ key) : getProp (embedOptEntry k v) key = .undef := by
  cases v with
  | none => rfl
  | some x => simp [embedOptEntry, getProp, h]

theorem normalizeString_roundtrip (s : String) (h : GoodStr s) :
    normalizeString (.str s) = s := by
  simp [normalizeString, h.1, h.2]

theorem normalizeArray_roundtrip (l : List String)
    (h : listNoSentinel l = true) : normalizeArray (.arr (l.map .str)) = l := by
  induction l with
  | nil => rfl
  | cons s t ih =>
    simp only [listNoSentinel, List.all_cons, Bool.and_eq_true,
      decide_eq_true_eq] at h
    have hk : keepElem (.str s) = true := by
      simp [keepElem, h.1.1, h.1.2]
    show ((JSValue.str s :: t.map .str).filter keepElem).map stringifyElem = s :: t
    rw [List.filter_cons, hk]
    show s :: ((t.map .str).filter keepElem).map stringifyElem = s :: t
    rw [show ((t.map JSValue.str).filter keepElem).map stringifyElem = t from ih h.2]

theorem normalizeIdentityColor_roundtrip (c : IdentityColor) (h : GoodColor c) :
    normalizeIdentityColor (embedIdentityColor c) = c := by
  show ({ description := normalizeString (.str c.description)
          hex := normalizeString (.str c.hex) } : IdentityColor) = c
  rw [normalizeString_roundtrip c.description h.1,
      normalizeString_roundtrip c.hex h.2]

theorem normalizeFaceGeometry_roundtrip (g : FaceGeometry)
    (h : GoodGeo (some g)) :
    normalizeFaceGeometry (embedFaceGeometry g) = some g := by
  obtain ⟨⟨h1, h2, h3, h4, h5⟩, hne⟩ := h
  show (if normalizeString (.str g.faceShape) ≠ "" ∨
        normalizeString (.str g.eyeShape) ≠ "" ∨
        normalizeString (.str g.browStyle) ≠ "" ∨
        normalizeString (.str g.noseShape) ≠ "" ∨
        normalizeString (.str g.lipShape) ≠ "" then
      some ({ faceShape := normalizeString (.str g.faceShape)
              eyeShape := normalizeString (.str g.eyeShape)
              browStyle := normalizeString (.str g.browStyle)
              noseShape := normalizeString (.str g.noseShape)
              lipShape := normalizeString (.str g.lipShape) } : FaceGeometry)
    else none) = some g
  rw [normalizeString_roundtrip g.faceShape h1,
      normalizeString_roundtrip g.eyeShape h2,
      normalizeString_roundtrip g.browStyle h3,
      normalizeString_roundtrip g.noseShape h4,
      normalizeString_roundtrip g.lipShape h5, if_pos hne]

theorem normalizeHairSpecifics_roundtrip (hs : HairSpecifics)
    (h : GoodHair (some hs)) :
    normalizeHairSpecifics (embedHairSpecifics hs) = some hs := by
  obtain ⟨⟨h1, h2, h3⟩, hne⟩ := h
  show (if normalizeString (.str hs.hairLength) ≠ "" ∨
        normalizeString (.str hs.hairWave) ≠ "" ∨
        normalizeString (.str hs.hairPart) ≠ "" then
      some ({ hairLength := normalizeString (.str hs.hairLength)
              hairWave := normalizeString (.str hs.hairWave)
              hairPart := normalizeString (.str hs.hairPart) } : HairSpecifics)
    else none) = some hs
  rw [normalizeString_roundtrip hs.hairLength h1,
      normalizeString_roundtrip hs.hairWave h2,
      normalizeString_roundtrip hs.hairPart h3, if_pos hne]

theorem clampJS_num_eq (q : ℚ) (h0 : 0 ≤ q) (h1 : q ≤ 1) :
    clampJS (.num q) = q := by
  show max 0 (min 1 q) = q
  rw [min_eq_right h1, max_eq_right h0]

theorem normalizeConfidence_roundtrip (c : DNAConfidence)
    (h : GoodConf (some c)) :
    normalizeConfidence (embedConfidence c) = some c := by
  obtain ⟨hov, hpc, hsc, hac, hfg, hhs, hpos⟩ := h
  show (if clampJS (.num c.overall) > 0 then
      some ({ overall := clampJS (.num c.overall)
              primaryColor := clampJS (.num c.primaryColor)
              secondaryColor := clampJS (.num c.secondaryColor)
              accentColor := clampJS (.num c.accentColor)
              faceGeometry := clampJS (.num c.faceGeometry)
              hairSpecifics := clampJS (.num c.hairSpecifics) } : DNAConfidence)
    else none) = some c
  rw [clampJS_num_eq c.overall hov.1 hov.2,
      clampJS_num_eq c.primaryColor hpc.1 hpc.2,
      clampJS_num_eq c.secondaryColor hsc.1 hsc.2,
      clampJS_num_eq c.accentColor hac.1 hac.2,
      clampJS_num_eq c.faceGeometry hfg.1 hfg.2,
      clampJS_num_eq c.hairSpecifics hhs.1 hhs.2, if_pos hpos]

theorem getProp_tail_fg (i : SubjectIdentity) :
    getProp (embedIdentityTail i) "faceGeometry" =
      (match i.faceGeometry with
       | some g => embedFaceGeometry g
       | none => .undef) := by
  unfold embedIdentityTail
  cases i.faceGeometry with
  | some g => rfl
  | none =>
    show getProp
        (embedOptEntry "hairSpecifics" (i.hairSpecifics.map embedHairSpecifics) ++
         (embedOptEntry "identityNegatives"
            (i.identityNegatives.map (fun l => JSValue.arr (l.map JSValue.str))) ++
          embedOptEntry "confidence" (i.confidence.map embedConfidence)))
        "faceGeometry" = JSValue.undef
    rw [getProp_embedOptEntry_ne "hairSpecifics" "faceGeometry" _ _ (by decide)]
    rw [getProp_embedOptEntry_ne "identityNegatives" "faceGeometry" _ _ (by decide)]
    exact getProp_embedOptEntry_last "confidence" "faceGeometry" _ (by decide)

theorem getProp_tail_hs (i : SubjectIdentity) :
    getProp (embedIdentityTail i) "hairSpecifics" =
      (match i.hairSpecifics with
       | some hs => embedHairSpecifics hs
       | none => .undef) := by
  unfold embedIdentityTail
  rw [getProp_embedOptEntry_ne "faceGeometry" "hairSpecifics" _ _ (by decide)]
  cases i.hairSpecifics with
  | some hs => rfl
  | none =>
    show getProp
        (embedOptEntry "identityNegatives"
           (i.identityNegatives.map (fun l => JSValue.arr (l.map JSValue.str))) ++
         embedOptEntry "confidence" (i.confidence.map embedConfidence))
        "hairSpecifics" = JSValue.undef
    rw [getProp_embedOptEntry_ne "identityNegatives" "hairSpecifics" _ _ (by decide)]
    exact getProp_embedOptEntry_last "confidence" "hairSpecifics" _ (by decide)

theorem getProp_tail_in (i : SubjectIdentity) :
    getProp (embedIdentityTail i) "identityNegatives" =
      (match i.identityNegatives with
       | some l => JSValue.arr (l.map JSValue.str)
       | none => .undef) := by
  unfold embedIdentityTail
  rw [getProp_embedOptEntry_ne "faceGeometry" "identityNegatives" _ _ (by decide)]
  rw [getProp_embedOptEntry_ne "hairSpecifics" "identityNegatives" _ _ (by decide)]
  cases i.identityNegatives with
  | some l => rfl
  | none =>
    show getProp (embedOptEntry "confidence" (i.confidence.map embedConfidence))
        "identityNegatives" = JSValue.undef
    exact getProp_embedOptEntry_last "confidence" "identityNegatives" _ (by decide)

theorem getProp_tail_conf (i : SubjectIdentity) :
    getProp (embedIdentityTail i) "confidence" =
      (match i.confidence with
       | some c => embedConfidence c
       | none => .undef) := by
  unfold embedIdentityTail
  rw [getProp_embedOptEntry_ne "faceGeometry" "confidence" _ _ (by decide)]
  rw [getProp_embedOptEntry_ne "hairSpecifics" "confidence" _ _ (by decide)]
  rw [getProp_embedOptEntry_ne "identityNegatives" "confidence" _ _ (by decide)]
  cases i.confidence with
  | some c => rfl
  | none => rfl

theorem normalizeFG_tail (i : SubjectIdentity) (h : GoodGeo i.faceGeometry) :
    normalizeFaceGeometry (getProp (embedIdentityTail i) "faceGeometry") =
      i.faceGeometry := by
  rw [getProp_tail_fg]
  cases hfg : i.faceGeometry with
  | none => rfl
  | some g =>
    rw [hfg] at h
    exact normalizeFaceGeometry_roundtrip g h

theorem normalizeHS_tail (i : SubjectIdentity) (h : GoodHair i.hairSpecifics) :
    normalizeHairSpecifics (getProp (embedIdentityTail i) "hairSpecifics") =
      i.hairSpecifics := by
  rw [getProp_tail_hs]
  cases hhs : i.hairSpecifics with
  | none => rfl
  | some hs =>
    rw [hhs] at h
    exact normalizeHairSpecifics_roundtrip hs h

theorem normalizeConf_tail (i : SubjectIdentity) (h : GoodConf i.confidence) :
    normalizeConfidence (getProp (embedIdentityTail i) "confidence") =
      i.confidence := by
  rw [getProp_tail_conf]
  cases hc : i.confidence with
  | none => rfl
  | some c =>
    rw [hc] at h
    exact normalizeConfidence_roundtrip c h

theorem normalizeIN_tail (i : SubjectIdentity)
    (hne : ∀ l, i.identityNegatives = some l → l ≠ [])
    (hns : ∀ l, i.identityNegatives = some l → listNoSentinel l = true) :
    (if (normalizeArray (getProp (embedIdentityTail i) "identityNegatives")).isEmpty
     then none
     else some (normalizeArray (getProp (embedIdentityTail i) "identityNegatives"))) =
      i.identityNegatives := by
  rw [getProp_tail_in]
  cases hin : i.identityNegatives with
  | none => rfl
  | some l =>
    show (if (normalizeArray (.arr (l.map .str))).isEmpty then none
          else some (normalizeArray (.arr (l.map .str)))) = some l
    rw [normalizeArray_roundtrip l (hns l hin)]
    have hF : l.isEmpty ≠ true := by
      cases l with
      | nil => exact absurd rfl (hne [] hin)
      | cons a t => simp
    rw [if_neg hF]

theorem normalizeIdentity_roundtrip (i : SubjectIdentity)
    (h : GoodIdentity (some i))
    (hdf : listNoSentinel i.distinguishingFeatures = true)
    (hneg : ∀ l, i.identityNegatives = some l → listNoSentinel l = true) :
    normalizeIdentity (embedIdentity i) = some i := by
  obtain ⟨hfirst, hpc, hsc, hac, htex, hstr, hage, hspec, hseed, hgeo, hhair,
    hin, hconf⟩ := h
  have hne : ∀ l, i.identityNegatives = some l → l ≠ [] := by
    intro l hl
    rw [hl] at hin
    exact hin
  have hred : normalizeIdentity (embedIdentity i) =
      (if (normalizeIdentityColor (embedIdentityColor i.primaryColor)).description = "" ∧
          normalizeString (.str i.fixedSeed) = "" then none
       else some
         { primaryColor := normalizeIdentityColor (embedIdentityColor i.primaryColor)
           secondaryColor :=
             normalizeIdentityColor (embedIdentityColor i.secondaryColor)
           accentColor := normalizeIdentityColor (embedIdentityColor i.accentColor)
           texture := normalizeString (.str i.texture)
           bodyStructure := normalizeString (.str i.bodyStructure)
           distinguishingFeatures :=
             normalizeArray (.arr (i.distinguishingFeatures.map .str))
           estimatedAge := normalizeString (.str i.estimatedAge)
           species := normalizeString (.str i.species)
           fixedSeed := normalizeString (.str i.fixedSeed)
           faceGeometry :=
             normalizeFaceGeometry (getProp (embedIdentityTail i) "faceGeometry")
           hairSpecifics :=
             normalizeHairSpecifics (getProp (embedIdentityTail i) "hairSpecifics")
           identityNegatives :=
             (if (normalizeArray
                    (getProp (embedIdentityTail i) "identityNegatives")).isEmpty
              then none
              else some (normalizeArray
                (getProp (embedIdentityTail i) "identityNegatives")))
           confidence :=
             normalizeConfidence (getProp (embedIdentityTail i) "confidence") }) :=
    rfl
  rw [hred,
      normalizeIdentityColor_roundtrip i.primaryColor hpc,
      normalizeIdentityColor_roundtrip i.secondaryColor hsc,
      normalizeIdentityColor_roundtrip i.accentColor hac,
      normalizeString_roundtrip i.texture htex,
      normalizeString_roundtrip i.bodyStructure hstr,
      normalizeString_roundtrip i.estimatedAge hage,
      normalizeString_roundtrip i.species hspec,
      normalizeString_roundtrip i.fixedSeed hseed,
      normalizeArray_roundtrip i.distinguishingFeatures hdf,
      normalizeFG_tail i hgeo,
      normalizeHS_tail i hhair,
      normalizeIN_tail i hne hneg,
      normalizeConf_tail i hconf,
      if_neg (not_and_or.mpr hfirst)]

theorem normalizeIdentity_entry (o : Option SubjectIdentity)
    (h : GoodIdentity o)
    (hdf : ∀ i, o = some i → listNoSentinel i.distinguishingFeatures = true)
    (hneg : ∀ i l, o = some i → i.identityNegatives = some l →
      listNoSentinel l = true) :
    normalizeIdentity
      (getProp (embedOptEntry "identity" (o.map embedIdentity)) "identity") = o := by
  cases o with
  | none => rfl
  | some i =>
    show normalizeIdentity (embedIdentity i) = some i
    exact normalizeIdentity_roundtrip i h (hdf i rfl) (fun l => hneg i l rfl)

theorem normalizeMetadata_roundtrip (md : ImageMetadata)
    (hgood : GoodMd md) (hns : mdNoSentinelArrays md = true) :
    normalizeMetadata (embedMetadata md) = some md := by
  obtain ⟨g1, g2, g3, g4, g5, g6, g7, g8, g9, g10, g11, g12, g13, g14, g15,
    g16, g17, g18, gid⟩ := hgood
  simp only [mdNoSentinelArrays, Bool.and_eq_true, and_assoc] at hns
  obtain ⟨h1, h2, h3, h4, h5⟩ := hns
  have hdf : ∀ i, md.subject.identity = some i →
      listNoSentinel i.distinguishingFeatures = true := by
    intro i hi
    rw [hi] at h5
    have h5b : (listNoSentinel i.distinguishingFeatures &&
        (match i.identityNegatives with
         | some l => listNoSentinel l
         | none => true)) = true := h5
    rw [Bool.and_eq_true] at h5b
    exact h5b.1
  have hneg : ∀ i l, md.subject.identity = some i →
      i.identityNegatives = some l → listNoSentinel l = true := by
    intro i l hi hl
    rw [hi] at h5
    have h5b : (listNoSentinel i.distinguishingFeatures &&
        (match i.identityNegatives with
         | some l => listNoSentinel l
         | none => true)) = true := h5
    rw [Bool.and_eq_true] at h5b
    have h6 := h5b.2
    rw [hl] at h6
    exact h6
  have hred : normalizeMetadata (embedMetadata md) = some
      { meta := { intent := normalizeString (.str md.meta.intent)
                  aspect_ratio := normalizeString (.str md.meta.aspect_ratio)
                  quality := normalizeString (.str md.meta.quality) }
        subject :=
          { archetype := normalizeString (.str md.subject.archetype)
            description := normalizeString (.str md.subject.description)
            expression := normalizeString (.str md.subject.expression)
            pose := normalizeString (.str md.subject.pose)
            attire := normalizeString (.str md.subject.attire)
            identity :=
              normalizeIdentity
                (getProp
                  (embedOptEntry "identity" (md.subject.identity.map embedIdentity))
                  "identity") }
        scene := { setting := normalizeString (.str md.scene.setting)
                   atmosphere := normalizeString (.str md.scene.atmosphere)
                   elements := normalizeArray (.arr (md.scene.elements.map .str)) }
        technical := { shot := normalizeString (.str md.technical.shot)
                       lens := normalizeString (.str md.technical.lens)
                       lighting := normalizeString (.str md.technical.lighting)
                       render := normalizeString (.str md.technical.render) }
        palette := { colors := normalizeArray (.arr (md.palette.colors.map .str))
                     mood := normalizeString (.str md.palette.mood) }
        details :=
          { textures := normalizeArray (.arr (md.details.textures.map .str))
            accents := normalizeArray (.arr (md.details.accents.map .str)) }
        negative := normalizeString (.str md.negative)
        text_content :=
          { overlay := normalizeString (.str md.text_content.overlay)
            style := normalizeString (.str md.text_content.style) } } := rfl
  rw [hred,
      normalizeString_roundtrip md.meta.intent g1,
      normalizeString_roundtrip md.meta.aspect_ratio g2,
      normalizeString_roundtrip md.meta.quality g3,
      normalizeString_roundtrip md.subject.archetype g4,
      normalizeString_roundtrip md.subject.description g5,
      normalizeString_roundtrip md.subject.expression g6,
      normalizeString_roundtrip md.subject.pose g7,
      normalizeString_roundtrip md.subject.attire g8,
      normalizeString_roundtrip md.scene.setting g9,
      normalizeString_roundtrip md.scene.atmosphere g10,
      normalizeString_roundtrip md.technical.shot g11,
      normalizeString_roundtrip md.technical.lens g12,
      normalizeString_roundtrip md.technical.lighting g13,
      normalizeString_roundtrip md.technical.render g14,
      normalizeString_roundtrip md.palette.mood g15,
      normalizeString_roundtrip md.negative g16,
      normalizeString_roundtrip md.text_content.overlay g17,
      normalizeString_roundtrip md.text_content.style g18,
      normalizeArray_roundtrip md.scene.elements h1,
      normalizeArray_roundtrip md.palette.colors h2,
      normalizeArray_roundtrip md.details.textures h3,
      normalizeArray_roundtrip md.details.accents h4,
      normalizeIdentity_entry md.subject.identity gid hdf hneg]

/-- Witness for C7 (amended): the list-shape part instantiated at
`threeColorIdentity`, whose identity negatives come back normally as the
9 drift entries, with the hypothesis discharged by `decide`. -/
theorem universal_negative_block_amended_witness :
    getIdentityNegatives (some threeColorIdentity) =
      .ok ["blue", "purple", "lavender", "tan", "dark", "olive",
           "brown", "red", "copper"] ∧
    ((["blue", "purple", "lavender", "tan", "dark", "olive",
       "brown", "red", "copper"] : List String).length ≤ 12 ∧
     (["blue", "purple", "lavender", "tan", "dark", "olive",
       "brown", "red", "copper"] : List String).Nodup ∧
     ∃ t, (["blue", "purple", "lavender", "tan", "dark", "olive",
           "brown", "red", "copper"] : List String) =
       jsSetDedup ((threeColorIdentity.identityNegatives.getD []).take 5) ++ t) :=
  ⟨by decide,
   universal_negative_block_amended.1 threeColorIdentity _ (by decide)⟩

/-- C5: counterexample to idempotence.  The raw input whose
`scene.elements` is the nested array `[["None"]]` normalizes to a
metadata whose `elements` list is `["None"]` (the inner array stringifies
to the sentinel `"None"`), and feeding that normalized result back in
drops the element, so the second normalization differs from the first. -/
theorem normalizeMetadata_idempotence_cex :
    ∃ md : ImageMetadata, normalizeMetadata nestedNoneRaw = some md ∧
      md.scene.elements = ["None"] ∧
      normalizeMetadata (embedMetadata md) ≠ some md := by
  have hjs : jsToString (.arr [.str "None"]) = "None" := by
    simp [jsToString, jsJoinToString]
  have helems : (normalizedRecord nestedNoneRaw).scene.elements = ["None"] := by
    show [jsToString (.arr [.str "None"])] = ["None"]
    rw [hjs]
  refine ⟨normalizedRecord nestedNoneRaw, rfl, helems, ?_⟩
  intro hEq
  have h3 : normalizedRecord (embedMetadata (normalizedRecord nestedNoneRaw)) =
      normalizedRecord nestedNoneRaw := Option.some_inj.mp hEq
  have h5 : normalizeArray
      (.arr ((normalizedRecord nestedNoneRaw).scene.elements.map .str)) =
      (normalizedRecord nestedNoneRaw).scene.elements :=
    congrArg (fun m => m.scene.elements) h3
  rw [helems] at h5
  exact absurd h5 (by decide)

/-- C5 (amended): `normalizeMetadata` is idempotent on every normalized
result none of whose array fields contains a sentinel string
(`"None"`/`"none"`): feeding such a result back in as raw input
reproduces it exactly.  (The counterexample shows the sentinel-array
restriction cannot be dropped.) -/
theorem normalizeMetadata_idempotent_amended (v : JSValue) (md : ImageMetadata)
    (h : normalizeMetadata v = some md) (hns : mdNoSentinelArrays md = true) :
    normalizeMetadata (embedMetadata md) = some md :=
  normalizeMetadata_roundtrip md (normalizeMetadata_good v md h) hns

/-- Witness for C5 (amended): the empty object normalizes to the
all-empty metadata, which has no sentinel arrays, and renormalizing its
embedding reproduces it. -/
theorem normalizeMetadata_idempotent_amended_witness :
    normalizeMetadata (.obj []) = some emptyImageMetadata ∧
    mdNoSentinelArrays emptyImageMetadata = true ∧
    normalizeMetadata (embedMetadata emptyImageMetadata) =
      some emptyImageMetadata :=
  ⟨rfl, by decide,
   normalizeMetadata_idempotent_amended (.obj []) emptyImageMetadata rfl
     (by decide)⟩

end StyleFusion
